import Mathlib

/-!
# Verification of the cafe storefront order-fulfillment core

Shallow embedding of the order-fulfillment logic of `src/app.py`:
checkout (order creation with promo / gift-card / inventory debit),
admin order-status transitions (loyalty accrual, cancellation tracking,
auto-blacklisting), no-show marking, payment verification, promo-code
application and the public menu listing.

The relational store is modelled as lists of rows (one structure per
table).  Monetary amounts and stock quantities (`REAL` columns) are
modelled as `ℚ`; row ids as `ℕ`.  Each request handler is a pure
function `DB → ... → Except Err DB`: an `.error` result models the
handler returning without `conn.commit()` (sqlite3 rolls the open
transaction back), so an error leaves the store unchanged by
construction, exactly as in the source.
-/

/-- Truthiness of an optional string, as Python evaluates
`if s:` (absent and `''` are falsy). -/
def truthyS : Option String → Bool
  | none => false
  | some s => s != ""

/-- Truthiness of an optional integer, as Python evaluates
`if n:` (absent and `0` are falsy). -/
def truthyN : Option Nat → Bool
  | none => false
  | some n => n != 0

/-- Python `int()` on a non-negative/negative rational: truncation
toward zero (`int(2.7) = 2`, `int(-2.7) = -2`). -/
def pyInt (q : ℚ) : Int := if 0 ≤ q then ⌊q⌋ else -⌊-q⌋

/-- `s.endswith(t)` in Python / `String.endsWith`. -/
def strEndsWith (s t : String) : Bool := decide (t.toList <:+ s.toList)

/-- SQLite `hay LIKE '%pat%'` (ASCII case-insensitive containment). -/
def likeContains (hay pat : String) : Bool :=
  decide (pat.toLower.toList <:+: hay.toLower.toList)

/-! ## Table rows (`init_database` in `src/app.py`) -/

/-- A `menu_items` row. -/
structure MenuItem where
  id : Nat
  name : String
  descr : String
  price : ℚ
  category : String
  is_available : Bool
deriving Repr, DecidableEq

/-- A `menu_item_ingredients` row (recipe entry). -/
structure RecipeEntry where
  menu_item_id : Nat
  ingredient_id : Nat
  quantity_required : ℚ
deriving Repr, DecidableEq

/-- An `ingredients` row (only the columns the core reads). -/
structure Ingredient where
  id : Nat
  current_stock : ℚ
deriving Repr, DecidableEq

/-- A `customers` row (only the columns the core reads). -/
structure Customer where
  id : Nat
  email : String
  phone : String
  email_verified : Bool
  no_show_count : Nat
  cancelled_count : Nat
deriving Repr, DecidableEq

/-- An `orders` row. -/
structure Order where
  id : Nat
  customer_id : Nat
  total_amount : ℚ
  discount_amount : ℚ
  promo_code : Option String
  pickup_time : String
  payment_method : String
  payment_proof : Option String
  payment_verified : Bool
  notes : String
  status : String
deriving Repr, DecidableEq

/-- An `order_items` row. -/
structure OrderItem where
  order_id : Nat
  menu_item_id : Nat
  quantity : Nat
  price : ℚ
deriving Repr, DecidableEq

/-- A `gift_cards` row. -/
structure GiftCard where
  id : Nat
  customer_id : Option Nat
  amount : ℚ
  balance : ℚ
  is_active : Bool
deriving Repr, DecidableEq

/-- A `gift_card_transactions` row. -/
structure GiftCardTransaction where
  gift_card_id : Nat
  transaction_type : String
  amount : ℚ
  descr : String
deriving Repr, DecidableEq

/-- A `promotions` row.  `min_order_amount REAL DEFAULT 0` (`NULL`/`0`
are both falsy in the Python checks, so `0` models both);
`max_uses INTEGER DEFAULT NULL`. -/
structure Promotion where
  code : String
  discount_type : String
  discount_value : ℚ
  min_order_amount : ℚ
  max_uses : Option Nat
  used_count : Nat
  is_active : Bool
  start_date : Option String
  end_date : Option String
deriving Repr, DecidableEq

/-- A `loyalty_points` row (`UNIQUE(customer_id)` in the schema). -/
structure LoyaltyRow where
  customer_id : Nat
  points : Int
  total_earned : Int
  total_redeemed : Int
deriving Repr, DecidableEq

/-- A `loyalty_transactions` row. -/
structure LoyaltyTransaction where
  customer_id : Nat
  points : Int
  transaction_type : String
  order_id : Option Nat
deriving Repr, DecidableEq

/-- A `blacklist` row (`no_show_count`, `cancelled_count` default `0`,
`is_active` defaults `1`). -/
structure BlacklistEntry where
  customer_id : Option Nat
  email : String
  phone : String
  reason : String
  no_show_count : Nat
  cancelled_count : Nat
  is_active : Bool
deriving Repr, DecidableEq

/-- An `inventory_transactions` row. -/
structure InventoryTransaction where
  ingredient_id : Nat
  transaction_type : String
  quantity : ℚ
  order_id : Option Nat
deriving Repr, DecidableEq

/-- The relational store: one list of rows per table, plus the next
`orders` autoincrement id. -/
structure DB where
  menu_items : List MenuItem
  recipe : List RecipeEntry
  ingredients : List Ingredient
  customers : List Customer
  orders : List Order
  order_items : List OrderItem
  gift_cards : List GiftCard
  gift_card_transactions : List GiftCardTransaction
  promotions : List Promotion
  loyalty_points : List LoyaltyRow
  loyalty_transactions : List LoyaltyTransaction
  blacklist : List BlacklistEntry
  inventory_transactions : List InventoryTransaction
  next_order_id : Nat
deriving Repr, DecidableEq

/-! ## Row lookups (`SELECT ... WHERE id = ?` / `fetchone`) -/

/-- `SELECT * FROM customers WHERE id = ?`. -/
def findCustomer (db : DB) (cid : Nat) : Option Customer :=
  db.customers.find? (fun c => c.id == cid)

/-- `SELECT * FROM orders WHERE id = ?`. -/
def findOrder (db : DB) (oid : Nat) : Option Order :=
  db.orders.find? (fun o => o.id == oid)

/-- `SELECT * FROM gift_cards WHERE id = ? AND customer_id = ? AND is_active = 1`. -/
def findGiftCard (db : DB) (gid cid : Nat) : Option GiftCard :=
  db.gift_cards.find? (fun c => c.id == gid && c.customer_id == some cid && c.is_active)

/-- `SELECT * FROM promotions WHERE code = ? AND is_active = 1`. -/
def findPromotion (db : DB) (code : String) : Option Promotion :=
  db.promotions.find? (fun p => p.code == code && p.is_active)

/-- `check_blacklist(customer_id, email, phone)` (`src/app.py:1325`):
first active row matching any of the supplied (truthy) identifiers. -/
def check_blacklist (db : DB) (cid : Option Nat) (email phone : String) :
    Option BlacklistEntry :=
  if truthyN cid = false ∧ email = "" ∧ phone = "" then none
  else db.blacklist.find? (fun b => b.is_active &&
    ((truthyN cid && b.customer_id == cid) ||
     (email != "" && b.email == email) ||
     (phone != "" && b.phone == phone)))

/-! ## Checkout (`checkout`, `src/app.py:2596-2816`) -/

/-- The POST form fields of the checkout request.  Absent text fields
arrive as `''` (`request.form.get(..., '')`). -/
structure CheckoutForm where
  pickup_time : String
  payment_method : String
  payment_proof : String
  notes : String
  gift_card_id : Option Nat
  use_gift_card : Bool
deriving Repr, DecidableEq

/-- The session promo state written by `apply_promo`
(`session['promo_code']`, `session['promo_discount_type']`,
`session['promo_discount_value']`). -/
structure SessionPromo where
  promo_code : Option String
  discount_type : String
  discount_value : ℚ
deriving Repr, DecidableEq

/-- The carted rows joined with their `menu_items` rows; cart entries
whose menu item no longer exists are silently dropped, as in the
source's `if menu_item:` loop. -/
def cartItems (db : DB) (cart : List (Nat × Nat)) : List (MenuItem × Nat) :=
  cart.filterMap (fun e => (db.menu_items.find? (fun m => m.id == e.1)).map (fun m => (m, e.2)))

/-- `total`: Σ current price × quantity over the carted items. -/
def cartTotal (db : DB) (cart : List (Nat × Nat)) : ℚ :=
  ((cartItems db cart).map (fun it => it.1.price * (it.2 : ℚ))).sum

/-- The discount computed at checkout from the session promo state
(`src/app.py:2697-2705`): percentage or fixed, clamped to the total. -/
def checkoutDiscount (sp : SessionPromo) (total : ℚ) : ℚ :=
  if truthyS sp.promo_code then
    min (if sp.discount_type = "percentage" then total * sp.discount_value / 100
         else sp.discount_value) total
  else 0

/-- `UPDATE promotions SET used_count = used_count + 1 WHERE code = ?`. -/
def bumpPromoUsed (db : DB) (code : String) : DB :=
  { db with promotions := db.promotions.map (fun p =>
      if p.code == code then { p with used_count := p.used_count + 1 } else p) }

/-- The store after the checkout promo step (`src/app.py:2708`): the
usage count is incremented whenever a session promo code is present. -/
def promoDb (db : DB) (sp : SessionPromo) : DB :=
  if truthyS sp.promo_code then bumpPromoUsed db (sp.promo_code.getD "") else db

/-- The gift-card redemption step (`src/app.py:2715-2731`): debit the
fetched card by `min(balance, final_total)` and append a `'redeemed'`
ledger row; a card that fails the ownership/active lookup contributes
nothing. -/
def giftCardStep (db : DB) (cid gid : Nat) (finalTotal : ℚ) : DB × ℚ :=
  match findGiftCard db gid cid with
  | some card =>
      let amt := min card.balance finalTotal
      ({ db with
          gift_cards := db.gift_cards.map (fun c =>
            if c.id == gid then { c with balance := card.balance - amt } else c),
          gift_card_transactions := db.gift_card_transactions ++
            [⟨gid, "redeemed", amt, "Used for order payment"⟩] }, amt)
  | none => (db, 0)

/-- The guarded gift-card phase: the step runs only when the box is
ticked and a card id was submitted (`if use_gift_card and gift_card_id:`). -/
def giftPhase (db : DB) (cid : Nat) (f : CheckoutForm) (finalTotal : ℚ) : DB × ℚ :=
  if f.use_gift_card = true ∧ truthyN f.gift_card_id = true then
    giftCardStep db cid (f.gift_card_id.getD 0) finalTotal
  else (db, 0)

/-- The `orders` row inserted by checkout (`src/app.py:2744-2764`),
including the payment-method rewriting and the `payment_verified`
determination for gift-card / mixed / cash payment. -/
def mkCheckoutOrder (oid cid : Nat) (total discount : ℚ) (sp : SessionPromo)
    (f : CheckoutForm) (giftAmt finalTotal : ℚ) : Order :=
  { id := oid, customer_id := cid
    total_amount := total - discount
    discount_amount := discount
    promo_code := sp.promo_code
    pickup_time := f.pickup_time
    payment_method :=
      if finalTotal = 0 ∧ 0 < giftAmt then "Gift Card"
      else if 0 < giftAmt ∧ 0 < finalTotal then "Gift Card + " ++ f.payment_method
      else f.payment_method
    payment_proof :=
      if finalTotal = 0 ∧ 0 < giftAmt then none else some f.payment_proof
    payment_verified :=
      if finalTotal = 0 ∧ 0 < giftAmt then true
      else if 0 < giftAmt ∧ 0 < finalTotal then
        strEndsWith ("Gift Card + " ++ f.payment_method) "Cash"
      else f.payment_method == "Cash"
    notes := f.notes
    status := "pending" }

/-- One recipe entry's inventory debit (`src/app.py:2781-2796`):
decrement the ingredient's stock by `quantity_required × quantity` —
with no sufficiency check — and append a `'usage'` inventory
transaction. -/
def usageStep (oid qty : Nat) (d : DB) (r : RecipeEntry) : DB :=
  { d with
    ingredients := d.ingredients.map (fun g =>
      if g.id == r.ingredient_id then
        { g with current_stock := g.current_stock - r.quantity_required * (qty : ℚ) }
      else g),
    inventory_transactions := d.inventory_transactions ++
      [⟨r.ingredient_id, "usage", r.quantity_required * (qty : ℚ), some oid⟩] }

/-- One order item's inventory debit: apply `usageStep` to each of the
item's recipe entries (`SELECT ingredient_id, quantity_required FROM
menu_item_ingredients WHERE menu_item_id = ?`). -/
def debitRecipes (oid : Nat) (item_id qty : Nat) (db : DB) : DB :=
  (db.recipe.filter (fun r => r.menu_item_id == item_id)).foldl (usageStep oid qty) db

/-- The order-items + inventory loop of checkout (`src/app.py:2768-2796`). -/
def insertItemsAndDebit (oid : Nat) (items : List (MenuItem × Nat)) (db : DB) : DB :=
  items.foldl (fun d it =>
    debitRecipes oid it.1.id it.2
      { d with order_items := d.order_items ++ [⟨oid, it.1.id, it.2, it.1.price⟩] }) db

/-- `discount_amount` as computed by checkout from the session promo. -/
def discountOf (db : DB) (cart : List (Nat × Nat)) (sp : SessionPromo) : ℚ :=
  checkoutDiscount sp (cartTotal db cart)

/-- The store and gift contribution after checkout's promo-increment and
gift-card steps: the promo step runs on the original store and the gift
phase on its result, with `final_total = total − discount` at that
point (`src/app.py:2697-2731`). -/
def giftStepOf (db : DB) (cid : Nat) (cart : List (Nat × Nat)) (f : CheckoutForm)
    (sp : SessionPromo) : DB × ℚ :=
  giftPhase (promoDb db sp) cid f (cartTotal db cart - discountOf db cart sp)

/-- `gift_card_amount` at the end of checkout's gift-card step. -/
def giftAmtOf (db : DB) (cid : Nat) (cart : List (Nat × Nat)) (f : CheckoutForm)
    (sp : SessionPromo) : ℚ :=
  (giftStepOf db cid cart f sp).2

/-- `final_total` after discount and gift-card contribution. -/
def finalTotalOf (db : DB) (cid : Nat) (cart : List (Nat × Nat)) (f : CheckoutForm)
    (sp : SessionPromo) : ℚ :=
  cartTotal db cart - discountOf db cart sp - giftAmtOf db cid cart f sp

/-- `cursor.lastrowid`: the id of the order row checkout inserts. -/
def newOrderIdOf (db : DB) (cid : Nat) (cart : List (Nat × Nat)) (f : CheckoutForm)
    (sp : SessionPromo) : Nat :=
  (giftStepOf db cid cart f sp).1.next_order_id

/-- The `orders` row checkout inserts. -/
def newOrderOf (db : DB) (cid : Nat) (cart : List (Nat × Nat)) (f : CheckoutForm)
    (sp : SessionPromo) : Order :=
  mkCheckoutOrder (newOrderIdOf db cid cart f sp) cid (cartTotal db cart)
    (discountOf db cart sp) sp f (giftAmtOf db cid cart f sp)
    (finalTotalOf db cid cart f sp)

/-- The committed store of a successful checkout: the promo/gift-card
steps, the order insert and the order-items + inventory-debit loop. -/
def checkoutDbOf (db : DB) (cid : Nat) (cart : List (Nat × Nat)) (f : CheckoutForm)
    (sp : SessionPromo) : DB :=
  insertItemsAndDebit (newOrderIdOf db cid cart f sp) (cartItems db cart)
    { (giftStepOf db cid cart f sp).1 with
      orders := (giftStepOf db cid cart f sp).1.orders ++ [newOrderOf db cid cart f sp],
      next_order_id := newOrderIdOf db cid cart f sp + 1 }

inductive CheckoutErr where
  | emptyCart | customerNotFound | blacklisted | emailNotVerified
  | missingPickupTime | missingPaymentMethod | missingPaymentProof
  | giftInsufficient | missingProofAfterGift
deriving Repr, DecidableEq

/-- The POST branch of `checkout` (`src/app.py:2596-2816`).  Returns the
committed store and the new order id, or the error the request was
rejected with (every error path closes the connection without
committing, so the store is unchanged). -/
def checkout (db : DB) (cid : Nat) (cart : List (Nat × Nat))
    (f : CheckoutForm) (sp : SessionPromo) : Except CheckoutErr (DB × Nat) :=
  if cart = [] then .error .emptyCart else
  match findCustomer db cid with
  | none => .error .customerNotFound
  | some cust =>
    match check_blacklist db (some cid) cust.email cust.phone with
    | some _ => .error .blacklisted
    | none =>
      if cust.email_verified = false then .error .emailNotVerified else
      if f.pickup_time = "" then .error .missingPickupTime else
      if f.payment_method = "" ∧ f.use_gift_card = false then .error .missingPaymentMethod else
      if f.payment_method ≠ "" ∧ f.payment_method ≠ "Cash" ∧ f.payment_proof = "" ∧
          f.use_gift_card = false then .error .missingPaymentProof else
      if 0 < finalTotalOf db cid cart f sp ∧ f.payment_method = "" then
        .error .giftInsufficient else
      if 0 < finalTotalOf db cid cart f sp ∧ f.payment_method ≠ "Cash" ∧
          f.payment_proof = "" then .error .missingProofAfterGift else
      .ok (checkoutDbOf db cid cart f sp, newOrderIdOf db cid cart f sp)

/-! ## Admin order-status update (`admin_update_order_status`,
`src/app.py:3052-3165`) -/

inductive StatusErr where
  | invalidStatus | orderNotFound | customerNotFound | paymentNotVerified
deriving Repr, DecidableEq

def valid_statuses : List String :=
  ["pending", "confirmed", "preparing", "ready", "completed", "cancelled"]

/-- `UPDATE orders SET status = ? WHERE id = ?`. -/
def setOrderStatus (db : DB) (oid : Nat) (s : String) : DB :=
  { db with orders := db.orders.map (fun o =>
      if o.id == oid then { o with status := s } else o) }

/-- The loyalty-award block (`src/app.py:3088-3117`): skipped entirely
when a `loyalty_transactions` row of type `'earned'` already exists for
the order; otherwise update (or create) the customer's `loyalty_points`
row and append the `'earned'` ledger row. -/
def awardLoyalty (db : DB) (oid cid : Nat) (pts : Int) : DB :=
  if (db.loyalty_transactions.find? (fun t =>
        t.order_id == some oid && t.transaction_type == "earned")).isSome then db
  else
    let db' : DB :=
      if (db.loyalty_points.find? (fun r => r.customer_id == cid)).isSome then
        { db with loyalty_points := db.loyalty_points.map (fun r =>
            if r.customer_id == cid then
              { r with points := r.points + pts, total_earned := r.total_earned + pts }
            else r) }
      else
        { db with loyalty_points := db.loyalty_points ++ [⟨cid, pts, pts, 0⟩] }
    { db' with loyalty_transactions := db'.loyalty_transactions ++
        [⟨cid, pts, "earned", some oid⟩] }

/-- The cancellation-tracking block (`src/app.py:3119-3136`): increment
`cancelled_count`; at 5 or more, insert a blacklist row (reason
`'Multiple cancellations (5+)'`) unless ANY blacklist row — active or
not — already exists for the customer.  A missing customer row makes
the handler raise (`customer['cancelled_count']` on `None`), which its
`except` clause turns into a rollback: modelled as an error. -/
def trackCancellation (db : DB) (cid : Nat) : Except StatusErr DB :=
  let db1 := { db with customers := db.customers.map (fun c =>
      if c.id == cid then { c with cancelled_count := c.cancelled_count + 1 } else c) }
  match findCustomer db1 cid with
  | none => .error .customerNotFound
  | some cust =>
    if 5 ≤ cust.cancelled_count then
      if (db1.blacklist.find? (fun b => b.customer_id == some cid)).isSome then .ok db1
      else .ok { db1 with blacklist := db1.blacklist ++
            [⟨some cid, cust.email, cust.phone, "Multiple cancellations (5+)", 0,
              cust.cancelled_count, true⟩] }
    else .ok db1

/-- `admin_update_order_status` (`src/app.py:3052-3165`): validate the
target status, fetch the order, refuse unverified non-cash payments for
`confirmed`/`preparing`/`ready`, then set the status unconditionally —
there is no transition-table check — and run the completion/cancellation
side-effect blocks guarded on the PREVIOUS status. -/
def admin_update_order_status (db : DB) (oid : Nat) (new_status : String) :
    Except StatusErr DB :=
  if new_status ∉ valid_statuses then .error .invalidStatus else
  match findOrder db oid with
  | none => .error .orderNotFound
  | some o =>
    if (new_status = "confirmed" ∨ new_status = "preparing" ∨ new_status = "ready") ∧
        o.payment_method ≠ "" ∧ o.payment_method ≠ "Cash" ∧ o.payment_verified = false
    then .error .paymentNotVerified else
    let db1 := setOrderStatus db oid new_status
    let db2 :=
      if new_status = "completed" ∧ o.status ≠ "completed" then
        awardLoyalty db1 oid o.customer_id (pyInt o.total_amount)
      else db1
    if new_status = "cancelled" ∧ o.status ≠ "cancelled" then
      trackCancellation db2 o.customer_id
    else .ok db2

/-- `admin_verify_payment` (`src/app.py:2948-2965`): set
`payment_verified = 1` on the order. -/
def admin_verify_payment (db : DB) (oid : Nat) : Except StatusErr DB :=
  match findOrder db oid with
  | none => .error .orderNotFound
  | some _ => .ok { db with orders := db.orders.map (fun o =>
      if o.id == oid then { o with payment_verified := true } else o) }

/-- `admin_mark_no_show` (`src/app.py:2986-3024`): increment the
customer's `no_show_count`; at 3 or more, insert a blacklist row
(reason `'Multiple no-shows (3+)'`) unless ANY blacklist row already
exists for the customer; finally set the order's status to
`'cancelled'` directly (NOT via the status-update route, so
`cancelled_count` is untouched). -/
def admin_mark_no_show (db : DB) (oid : Nat) : Except StatusErr DB :=
  match findOrder db oid with
  | none => .error .orderNotFound
  | some o =>
    let db1 := { db with customers := db.customers.map (fun c =>
        if c.id == o.customer_id then { c with no_show_count := c.no_show_count + 1 } else c) }
    match findCustomer db1 o.customer_id with
    | none => .error .customerNotFound
    | some cust =>
      let db2 :=
        if 3 ≤ cust.no_show_count then
          if (db1.blacklist.find? (fun b => b.customer_id == some o.customer_id)).isSome
          then db1
          else { db1 with blacklist := db1.blacklist ++
                [⟨some o.customer_id, cust.email, cust.phone, "Multiple no-shows (3+)",
                  cust.no_show_count, 0, true⟩] }
        else db1
      .ok (setOrderStatus db2 oid "cancelled")

/-! ## Promo application (`apply_promo`, `src/app.py:4670-4726`) -/

inductive PromoErr where
  | emptyCode | invalidCode | notYetActive | expired | usageLimitReached | minOrderNotMet
deriving Repr, DecidableEq

/-- `apply_promo` (`src/app.py:4670-4726`): validate the code against
the promotions table and the CURRENT cart, then stash the discount
parameters in the session.  `code` is the submitted promo code after
the route's `.strip().upper()` input normalization.  The handler never
writes to the store (its connection only reads), so all its rejections
trivially leave every ledger unchanged. -/
def apply_promo (db : DB) (code : String) (cart : List (Nat × Nat))
    (today : String) : Except PromoErr SessionPromo :=
  if code = "" then .error .emptyCode else
  match findPromotion db code with
  | none => .error .invalidCode
  | some promo =>
    if truthyS promo.start_date = true ∧ today < promo.start_date.getD "" then
      .error .notYetActive else
    if truthyS promo.end_date = true ∧ promo.end_date.getD "" < today then
      .error .expired else
    if truthyN promo.max_uses = true ∧ promo.max_uses.getD 0 ≤ promo.used_count then
      .error .usageLimitReached else
    if promo.min_order_amount ≠ 0 ∧ cartTotal db cart < promo.min_order_amount then
      .error .minOrderNotMet else
    .ok ⟨some code, promo.discount_type, promo.discount_value⟩

/-! ## Public menu listing (`menu`, `src/app.py:1207-1312`) -/

/-- The rows returned by the `menu` route's query
(`SELECT * FROM menu_items WHERE 1=1` plus the optional search and
category filters, `src/app.py:1233-1254`).  The source's `ORDER BY`
clauses only reorder the rows and are not modelled; note that the query
filters neither on ingredient stock nor on `is_available` — the route's
own comment reads "show ALL items including sold-out ones". -/
def menuListing (db : DB) (search category : String) : List MenuItem :=
  db.menu_items.filter (fun m =>
    (search == "" || likeContains m.name search || likeContains m.descr search) &&
    (category == "" || m.category == category))

/-! ## Derived observations used by the claims -/

/-- The status of an order, when it exists. -/
def orderStatus (db : DB) (oid : Nat) : Option String :=
  (findOrder db oid).map (fun o => o.status)

/-- `count(loyalty_transactions where order_id = oid and type = 'earned')`. -/
def earnedCount (db : DB) (oid : Nat) : Nat :=
  (db.loyalty_transactions.filter (fun t =>
    t.order_id == some oid && t.transaction_type == "earned")).length

/-- The customer's loyalty points balance (sum over their
`loyalty_points` rows; the schema's `UNIQUE(customer_id)` makes this
the single row's balance). -/
def pointsBalance (db : DB) (cid : Nat) : Int :=
  ((db.loyalty_points.filter (fun r => r.customer_id == cid)).map (fun r => r.points)).sum

/-- Whether an active blacklist row exists for the customer id. -/
def activeBlacklistFor (db : DB) (cid : Nat) : Bool :=
  (db.blacklist.find? (fun b => b.is_active && b.customer_id == some cid)).isSome

/-- The current stock of an ingredient, when it exists. -/
def stockOf (db : DB) (gid : Nat) : Option ℚ :=
  (db.ingredients.find? (fun g => g.id == gid)).map (fun g => g.current_stock)

/-! ## Example stores

Concrete stores used by the counterexamples and by the witnesses of the
general theorems. -/

/-- An empty store (every table empty, next order id 1). -/
def emptyDB : DB :=
  { menu_items := [], recipe := [], ingredients := [], customers := [], orders := []
    order_items := [], gift_cards := [], gift_card_transactions := [], promotions := []
    loyalty_points := [], loyalty_transactions := [], blacklist := []
    inventory_transactions := [], next_order_id := 1 }

/-- A plain cash checkout form (pickup chosen, no gift card). -/
def cashForm : CheckoutForm := ⟨"10:00", "Cash", "", "", none, false⟩

/-- No promo code in the session. -/
def noPromo : SessionPromo := ⟨none, "", 0⟩

/-- The spec's §8 scenario: ingredient Milk (id 1) with 0.2 L stock, a
Latte (id 1, ₱5) whose recipe requires 0.2 L per unit, one verified,
unrestricted customer. -/
def milkDb : DB :=
  { emptyDB with
    menu_items := [⟨1, "Latte", "", 5, "Coffee", true⟩]
    recipe := [⟨1, 1, 1/5⟩]
    ingredients := [⟨1, 1/5⟩]
    customers := [⟨1, "a@b.c", "0917", true, 0, 0⟩] }

/-- What `checkout` actually commits on the Milk scenario: the order is
created and Milk's stock is driven to −0.2 L. -/
def milkDbAfter : DB :=
  { milkDb with
    ingredients := [⟨1, -(1/5)⟩]
    orders := [⟨1, 1, 10, 0, none, "10:00", "Cash", some "", true, "", "pending"⟩]
    order_items := [⟨1, 1, 2, 5⟩]
    inventory_transactions := [⟨1, "usage", 2/5, some 1⟩]
    next_order_id := 2 }

/-- A pending ₱7.50 cash order (id 1) of customer 7, who holds a
loyalty balance of 10 points and has never earned points on it. -/
def c2Order : Order := ⟨1, 7, 15/2, 0, none, "10:00", "Cash", some "", true, "", "pending"⟩

def c2Cust : Customer := ⟨7, "c@d.e", "0918", true, 0, 0⟩

def c2Db : DB :=
  { emptyDB with
    customers := [c2Cust]
    orders := [c2Order]
    loyalty_points := [⟨7, 10, 10, 0⟩] }


/-- A store with a single `'completed'` cash order (id 1) for C3. -/
def termOrder : Order := ⟨1, 1, 10, 0, none, "10:00", "Cash", some "", true, "", "completed"⟩

def termDb : DB :=
  { emptyDB with
    customers := [⟨1, "t@u.v", "0919", true, 0, 0⟩]
    orders := [termOrder]
    next_order_id := 2 }

def termDbAfter : DB :=
  { termDb with orders := [{ termOrder with status := "pending" }] }

/-- An unverified GCash order for C4. -/
def c4Order : Order := ⟨1, 1, 10, 0, none, "10:00", "GCash", some "ref123", false, "", "pending"⟩

def c4Db : DB :=
  { emptyDB with
    customers := [⟨1, "g@h.i", "0920", true, 0, 0⟩]
    orders := [c4Order]
    next_order_id := 2 }

def spSave10 : SessionPromo := ⟨some "SAVE10", "percentage", 10⟩

/-- The spec's SAVE10 scenario store for C8: Mocha at 3.50, a 10%
promo with minimum order 5.00. -/
def c8Db : DB :=
  { emptyDB with
    menu_items := [⟨1, "Mocha", "", 7/2, "Coffee", true⟩]
    customers := [⟨1, "m@n.o", "0921", true, 0, 0⟩]
    promotions := [⟨"SAVE10", "percentage", 10, 5, none, 0, true, none, none⟩] }

/-- The store checkout commits on the SAVE10 scenario: subtotal 7.00,
discount 0.70, total 6.30, promo usage bumped. -/
def c8DbAfter : DB :=
  { c8Db with
    promotions := [⟨"SAVE10", "percentage", 10, 5, none, 1, true, none, none⟩]
    orders := [⟨1, 1, 63/10, 7/10, some "SAVE10", "10:00", "Cash", some "", true, "", "pending"⟩]
    order_items := [⟨1, 1, 2, 7/2⟩]
    next_order_id := 2 }

def giftForm : CheckoutForm := ⟨"10:00", "Cash", "", "", some 3, true⟩

def c9Card : GiftCard := ⟨3, some 1, 5, 5, true⟩

/-- A store with an active, customer-owned gift card (id 3, balance 5)
for C9. -/
def c9Db : DB :=
  { emptyDB with
    menu_items := [⟨1, "Cake", "", 6, "Dessert", true⟩]
    customers := [⟨1, "p@q.r", "0922", true, 0, 0⟩]
    gift_cards := [c9Card] }

/-- The store checkout commits for C9: card drained 5 → 0, a
5.00 redemption ledger row, final due 1.00 paid in cash. -/
def c9DbAfter : DB :=
  { c9Db with
    gift_cards := [⟨3, some 1, 5, 0, true⟩]
    gift_card_transactions := [⟨3, "redeemed", 5, "Used for order payment"⟩]
    orders := [⟨1, 1, 6, 0, none, "10:00", "Gift Card + Cash", some "", true, "", "pending"⟩]
    order_items := [⟨1, 1, 1, 6⟩]
    next_order_id := 2 }

/-- An active promotion whose usage cap is already reached
(`max_uses = 1`, `used_count = 1`) for C5. -/
def c5Promo : Promotion := ⟨"CAP1", "percentage", 10, 0, some 1, 1, true, none, none⟩

def spCap : SessionPromo := ⟨some "CAP1", "percentage", 10⟩

def c5Db : DB :=
  { emptyDB with
    menu_items := [⟨1, "Brew", "", 10, "Coffee", true⟩]
    customers := [⟨1, "s@t.u", "0923", true, 0, 0⟩]
    promotions := [c5Promo] }

/-- The store checkout commits for C5: the capped promo is honoured
and its `used_count` is pushed past the cap to 2. -/
def c5DbAfter : DB :=
  { c5Db with
    promotions := [⟨"CAP1", "percentage", 10, 0, some 1, 2, true, none, none⟩]
    orders := [⟨1, 1, 9, 1, some "CAP1", "10:00", "Cash", some "", true, "", "pending"⟩]
    order_items := [⟨1, 1, 1, 10⟩]
    next_order_id := 2 }

/-- A flagged-available item whose recipe needs 1 unit of an
ingredient with 0 stock, for C6. -/
def c6Item : MenuItem := ⟨1, "Latte", "", 5, "Coffee", true⟩

def c6Db : DB :=
  { emptyDB with
    menu_items := [c6Item]
    recipe := [⟨1, 1, 1⟩]
    ingredients := [⟨1, 0⟩] }

/-- C6 counterexample -/

def c7Cust : Customer := ⟨1, "x@y.z", "0930", true, 2, 0⟩

def c7Order : Order := ⟨1, 1, 5, 0, none, "10:00", "Cash", some "", true, "", "pending"⟩

def c7OldRow : BlacklistEntry := ⟨some 1, "x@y.z", "0930", "old entry (removed)", 3, 0, false⟩

/-- C7 counterexample store: customer 1 has 2 no-shows and one
DEACTIVATED blacklist row (restriction lifted via
`admin_remove_blacklist`). -/
def c7Db : DB :=
  { emptyDB with
    menu_items := [⟨1, "Latte", "", 5, "Coffee", true⟩]
    customers := [c7Cust]
    orders := [c7Order]
    blacklist := [c7OldRow]
    next_order_id := 2 }

/-- After the third no-show: count 3, order cancelled — but no new
blacklist row, because the deactivated row suppresses the insert. -/
def c7DbAfter : DB :=
  { c7Db with
    customers := [⟨1, "x@y.z", "0930", true, 3, 0⟩]
    orders := [⟨1, 1, 5, 0, none, "10:00", "Cash", some "", true, "", "cancelled"⟩] }

/-- The store after the supposedly-blocked customer's next checkout:
order #2 is accepted. -/
def c7DbAfter2 : DB :=
  { c7DbAfter with
    orders := [⟨1, 1, 5, 0, none, "10:00", "Cash", some "", true, "", "cancelled"⟩,
               ⟨2, 1, 5, 0, none, "10:00", "Cash", some "", true, "", "pending"⟩]
    order_items := [⟨2, 1, 1, 5⟩]
    next_order_id := 3 }

def c7WCust : Customer := ⟨1, "w@x.y", "0931", true, 2, 0⟩

/-- C7 witness store: a clean customer with 2 no-shows and no
blacklist history. -/
def c7WDb : DB :=
  { emptyDB with
    menu_items := [⟨1, "Latte", "", 5, "Coffee", true⟩]
    customers := [c7WCust]
    orders := [c7Order]
    next_order_id := 2 }

/-! ## Frame lemmas

The inventory-debit fold touches only `ingredients` and
`inventory_transactions`; the order-items loop additionally touches
`order_items`; the promo and gift-card steps touch only `promotions`
resp. `gift_cards`/`gift_card_transactions`.  These lemmas let the
claim proofs read any other table through a successful checkout. -/

lemma foldl_usageStep_frame (oid qty : Nat) :
    ∀ (rs : List RecipeEntry) (d : DB),
      (rs.foldl (usageStep oid qty) d).menu_items = d.menu_items ∧
      (rs.foldl (usageStep oid qty) d).recipe = d.recipe ∧
      (rs.foldl (usageStep oid qty) d).customers = d.customers ∧
      (rs.foldl (usageStep oid qty) d).orders = d.orders ∧
      (rs.foldl (usageStep oid qty) d).order_items = d.order_items ∧
      (rs.foldl (usageStep oid qty) d).gift_cards = d.gift_cards ∧
      (rs.foldl (usageStep oid qty) d).gift_card_transactions = d.gift_card_transactions ∧
      (rs.foldl (usageStep oid qty) d).promotions = d.promotions ∧
      (rs.foldl (usageStep oid qty) d).loyalty_points = d.loyalty_points ∧
      (rs.foldl (usageStep oid qty) d).loyalty_transactions = d.loyalty_transactions ∧
      (rs.foldl (usageStep oid qty) d).blacklist = d.blacklist ∧
      (rs.foldl (usageStep oid qty) d).next_order_id = d.next_order_id := by
  intro rs
  induction rs with
  | nil => intro d; simp
  | cons r rs ih =>
    intro d
    simpa [usageStep] using ih (usageStep oid qty d r)

lemma debitRecipes_frame (oid iid qty : Nat) (d : DB) :
    (debitRecipes oid iid qty d).menu_items = d.menu_items ∧
    (debitRecipes oid iid qty d).recipe = d.recipe ∧
    (debitRecipes oid iid qty d).customers = d.customers ∧
    (debitRecipes oid iid qty d).orders = d.orders ∧
    (debitRecipes oid iid qty d).order_items = d.order_items ∧
    (debitRecipes oid iid qty d).gift_cards = d.gift_cards ∧
    (debitRecipes oid iid qty d).gift_card_transactions = d.gift_card_transactions ∧
    (debitRecipes oid iid qty d).promotions = d.promotions ∧
    (debitRecipes oid iid qty d).loyalty_points = d.loyalty_points ∧
    (debitRecipes oid iid qty d).loyalty_transactions = d.loyalty_transactions ∧
    (debitRecipes oid iid qty d).blacklist = d.blacklist ∧
    (debitRecipes oid iid qty d).next_order_id = d.next_order_id := by
  unfold debitRecipes
  exact foldl_usageStep_frame oid qty _ d

lemma insertItemsAndDebit_frame (oid : Nat) :
    ∀ (items : List (MenuItem × Nat)) (d : DB),
      (insertItemsAndDebit oid items d).menu_items = d.menu_items ∧
      (insertItemsAndDebit oid items d).recipe = d.recipe ∧
      (insertItemsAndDebit oid items d).customers = d.customers ∧
      (insertItemsAndDebit oid items d).orders = d.orders ∧
      (insertItemsAndDebit oid items d).gift_cards = d.gift_cards ∧
      (insertItemsAndDebit oid items d).gift_card_transactions = d.gift_card_transactions ∧
      (insertItemsAndDebit oid items d).promotions = d.promotions ∧
      (insertItemsAndDebit oid items d).loyalty_points = d.loyalty_points ∧
      (insertItemsAndDebit oid items d).loyalty_transactions = d.loyalty_transactions ∧
      (insertItemsAndDebit oid items d).blacklist = d.blacklist ∧
      (insertItemsAndDebit oid items d).next_order_id = d.next_order_id := by
  intro items
  induction items with
  | nil => intro d; simp [insertItemsAndDebit]
  | cons it items ih =>
    intro d
    have hd := debitRecipes_frame oid it.1.id it.2
      { d with order_items := d.order_items ++ [⟨oid, it.1.id, it.2, it.1.price⟩] }
    have := ih (debitRecipes oid it.1.id it.2
      { d with order_items := d.order_items ++ [⟨oid, it.1.id, it.2, it.1.price⟩] })
    simp only [insertItemsAndDebit, List.foldl_cons] at this ⊢
    simp only [this, hd.1, hd.2.1, hd.2.2.1, hd.2.2.2.1, hd.2.2.2.2.1, hd.2.2.2.2.2.1,
      hd.2.2.2.2.2.2.1, hd.2.2.2.2.2.2.2.1, hd.2.2.2.2.2.2.2.2.1, hd.2.2.2.2.2.2.2.2.2.1,
      hd.2.2.2.2.2.2.2.2.2.2.1, hd.2.2.2.2.2.2.2.2.2.2.2]
    simp

lemma promoDb_frame (db : DB) (sp : SessionPromo) :
    (promoDb db sp).menu_items = db.menu_items ∧
    (promoDb db sp).recipe = db.recipe ∧
    (promoDb db sp).ingredients = db.ingredients ∧
    (promoDb db sp).customers = db.customers ∧
    (promoDb db sp).orders = db.orders ∧
    (promoDb db sp).order_items = db.order_items ∧
    (promoDb db sp).gift_cards = db.gift_cards ∧
    (promoDb db sp).gift_card_transactions = db.gift_card_transactions ∧
    (promoDb db sp).loyalty_points = db.loyalty_points ∧
    (promoDb db sp).loyalty_transactions = db.loyalty_transactions ∧
    (promoDb db sp).blacklist = db.blacklist ∧
    (promoDb db sp).next_order_id = db.next_order_id := by
  unfold promoDb bumpPromoUsed
  split <;> simp

/-- Looking an order up after `setOrderStatus` sees the update exactly
on the targeted id. -/
lemma findOrder_setOrderStatus (db : DB) (oid : Nat) (s : String) (oid' : Nat) :
    findOrder (setOrderStatus db oid s) oid' =
      (findOrder db oid').map (fun o => if o.id == oid then { o with status := s } else o) := by
  unfold findOrder setOrderStatus
  rw [List.find?_map]
  have hp : ((fun o => o.id == oid') ∘ fun o : Order =>
      if o.id == oid then { o with status := s } else o) = (fun o : Order => o.id == oid') := by
    funext o; by_cases h : o.id = oid <;> simp [h]
  rw [hp]

/-- Looking an order up after `admin_verify_payment`'s `UPDATE`. -/
lemma findOrder_mapVerified (db : DB) (oid : Nat) (oid' : Nat) :
    findOrder { db with orders := db.orders.map (fun o =>
        if o.id == oid then { o with payment_verified := true } else o) } oid' =
      (findOrder db oid').map (fun o =>
        if o.id == oid then { o with payment_verified := true } else o) := by
  unfold findOrder
  rw [List.find?_map]
  have hp : ((fun o => o.id == oid') ∘ fun o : Order =>
      if o.id == oid then { o with payment_verified := true } else o) =
      (fun o : Order => o.id == oid') := by
    funext o; by_cases h : o.id = oid <;> simp [h]
  rw [hp]

/-- Looking a customer up after a counter-update `UPDATE customers ...
WHERE id = ?` sees the update exactly on the targeted id. -/
lemma findCustomer_map (db : DB) (cid : Nat) (f : Customer → Customer)
    (hf : ∀ c, (f c).id = c.id) (cid' : Nat) :
    findCustomer { db with customers := db.customers.map (fun c =>
        if c.id == cid then f c else c) } cid' =
      (findCustomer db cid').map (fun c => if c.id == cid then f c else c) := by
  unfold findCustomer
  rw [List.find?_map]
  have hp : ((fun c => c.id == cid') ∘ fun c : Customer =>
      if c.id == cid then f c else c) = (fun c : Customer => c.id == cid') := by
    funext c; by_cases h : c.id = cid <;> simp [h, hf]
  rw [hp]

lemma giftPhase_frame (db : DB) (cid : Nat) (f : CheckoutForm) (t : ℚ) :
    (giftPhase db cid f t).1.menu_items = db.menu_items ∧
    (giftPhase db cid f t).1.recipe = db.recipe ∧
    (giftPhase db cid f t).1.ingredients = db.ingredients ∧
    (giftPhase db cid f t).1.customers = db.customers ∧
    (giftPhase db cid f t).1.orders = db.orders ∧
    (giftPhase db cid f t).1.order_items = db.order_items ∧
    (giftPhase db cid f t).1.promotions = db.promotions ∧
    (giftPhase db cid f t).1.loyalty_points = db.loyalty_points ∧
    (giftPhase db cid f t).1.loyalty_transactions = db.loyalty_transactions ∧
    (giftPhase db cid f t).1.blacklist = db.blacklist ∧
    (giftPhase db cid f t).1.next_order_id = db.next_order_id := by
  unfold giftPhase giftCardStep
  split
  · split <;> simp
  · simp

/-- Successful-checkout normal form: when every validation condition
holds, checkout commits `checkoutDbOf` and returns the fresh order id. -/
lemma checkout_ok (db : DB) (cid : Nat) (cart : List (Nat × Nat)) (f : CheckoutForm)
    (sp : SessionPromo) (cust : Customer)
    (h0 : cart ≠ [])
    (h1 : findCustomer db cid = some cust)
    (h2 : check_blacklist db (some cid) cust.email cust.phone = none)
    (h3 : cust.email_verified = true)
    (h4 : f.pickup_time ≠ "")
    (h5 : ¬(f.payment_method = "" ∧ f.use_gift_card = false))
    (h6 : ¬(f.payment_method ≠ "" ∧ f.payment_method ≠ "Cash" ∧ f.payment_proof = "" ∧
        f.use_gift_card = false))
    (h7 : ¬(0 < finalTotalOf db cid cart f sp ∧ f.payment_method = ""))
    (h8 : ¬(0 < finalTotalOf db cid cart f sp ∧ f.payment_method ≠ "Cash" ∧
        f.payment_proof = "")) :
    checkout db cid cart f sp =
      .ok (checkoutDbOf db cid cart f sp, newOrderIdOf db cid cart f sp) := by
  unfold checkout
  rw [if_neg h0, h1]
  simp only [h2]
  rw [if_neg (by simp [h3]), if_neg h4, if_neg h5, if_neg h6, if_neg h7, if_neg h8]


/-! ## Loyalty-award lemmas -/

/-- The award block leaves the `orders` table untouched. -/
lemma awardLoyalty_orders (db : DB) (oid cid : Nat) (pts : Int) :
    (awardLoyalty db oid cid pts).orders = db.orders := by
  unfold awardLoyalty
  split
  · rfl
  · split <;> rfl

/-- The award block leaves `customers` untouched. -/
lemma awardLoyalty_customers (db : DB) (oid cid : Nat) (pts : Int) :
    (awardLoyalty db oid cid pts).customers = db.customers := by
  unfold awardLoyalty
  split
  · rfl
  · split <;> rfl

/-- The award block leaves `blacklist` untouched. -/
lemma awardLoyalty_blacklist (db : DB) (oid cid : Nat) (pts : Int) :
    (awardLoyalty db oid cid pts).blacklist = db.blacklist := by
  unfold awardLoyalty
  split
  · rfl
  · split <;> rfl

/-- A zero earned-count means the idempotence lookup finds nothing. -/
lemma earned_find?_eq_none (db : DB) (oid : Nat) (h : earnedCount db oid = 0) :
    db.loyalty_transactions.find? (fun t =>
      t.order_id == some oid && t.transaction_type == "earned") = none := by
  rw [List.find?_eq_none]
  intro t htm hpt
  have : t ∈ db.loyalty_transactions.filter (fun t =>
      t.order_id == some oid && t.transaction_type == "earned") :=
    List.mem_filter.mpr ⟨htm, hpt⟩
  rw [List.length_eq_zero.mp h] at this
  exact absurd this (List.not_mem_nil t)

/-- Awarding against a fresh order id appends exactly one earned row. -/
lemma earnedCount_awardLoyalty (db : DB) (oid cid : Nat) (pts : Int)
    (hno : db.loyalty_transactions.find? (fun t =>
      t.order_id == some oid && t.transaction_type == "earned") = none) :
    earnedCount (awardLoyalty db oid cid pts) oid = earnedCount db oid + 1 := by
  unfold awardLoyalty
  rw [hno]
  simp only [Option.isSome_none, Bool.false_eq_true, if_false]
  split <;> simp [earnedCount, List.filter_append]

/-- Summing the points of the matching rows through the award's
`UPDATE` map: each matching row gains `pts`. -/
lemma sum_points_award_map (l : List LoyaltyRow) (cid : Nat) (pts : Int) :
    ((((l.map (fun r => if r.customer_id == cid then
        { r with points := r.points + pts, total_earned := r.total_earned + pts }
      else r)).filter (fun r => r.customer_id == cid)).map (fun r => r.points)).sum)
    = ((l.filter (fun r => r.customer_id == cid)).map (fun r => r.points)).sum +
        pts * (l.filter (fun r => r.customer_id == cid)).length := by
  induction l with
  | nil => simp
  | cons r l ih =>
    by_cases h : r.customer_id = cid
    · simp only [List.map_cons, List.filter_cons, h, beq_self_eq_true, if_pos]
      simp only [List.map_cons, List.sum_cons, List.length_cons, ih]
      push_cast
      ring
    · simp only [List.map_cons, List.filter_cons]
      have hb : (r.customer_id == cid) = false := by simp [h]
      simp only [hb, Bool.false_eq_true, if_false]
      exact ih

/-- Awarding against a fresh order id raises the customer's balance by
exactly `pts`, given the schema's one-row-per-customer invariant. -/
lemma pointsBalance_awardLoyalty (db : DB) (oid cid : Nat) (pts : Int)
    (hno : db.loyalty_transactions.find? (fun t =>
      t.order_id == some oid && t.transaction_type == "earned") = none)
    (hu : (db.loyalty_points.filter (fun r => r.customer_id == cid)).length ≤ 1) :
    pointsBalance (awardLoyalty db oid cid pts) cid = pointsBalance db cid + pts := by
  unfold awardLoyalty
  rw [hno]
  simp only [Option.isSome_none, Bool.false_eq_true, if_false]
  split
  · -- an existing loyalty_points row: the UPDATE path
    next hfound =>
    obtain ⟨r, hr⟩ := Option.isSome_iff_exists.mp hfound
    have hmem : r ∈ db.loyalty_points := List.mem_of_find?_eq_some hr
    have hpr : (r.customer_id == cid) = true :=
      @List.find?_some _ (fun r => r.customer_id == cid) r db.loyalty_points hr
    have hlen1 : 1 ≤ (db.loyalty_points.filter (fun r => r.customer_id == cid)).length := by
      have : r ∈ db.loyalty_points.filter (fun r => r.customer_id == cid) :=
        List.mem_filter.mpr ⟨hmem, hpr⟩
      exact List.length_pos.mpr (List.ne_nil_of_mem this)
    have hlen : (db.loyalty_points.filter (fun r => r.customer_id == cid)).length = 1 :=
      le_antisymm hu hlen1
    unfold pointsBalance
    simp only [sum_points_award_map, hlen]
    ring
  · -- no loyalty_points row: the INSERT path
    next hnone =>
    have hf : db.loyalty_points.find? (fun r => r.customer_id == cid) = none := by
      cases hcase : db.loyalty_points.find? (fun r => r.customer_id == cid) with
      | none => rfl
      | some r => rw [hcase] at hnone; simp at hnone
    have hfil : db.loyalty_points.filter (fun r => r.customer_id == cid) = [] := by
      rw [List.filter_eq_nil_iff]
      intro r hm
      exact (List.find?_eq_none.mp hf) r hm
    unfold pointsBalance
    simp [List.filter_append, hfil]

/-- Two stores with the same `orders` table agree on order lookups. -/
lemma findOrder_eq_of_orders (d1 d2 : DB) (h : d1.orders = d2.orders) (oid : Nat) :
    findOrder d1 oid = findOrder d2 oid := by
  unfold findOrder; rw [h]

lemma findCustomer_eq_of_customers (d1 d2 : DB) (h : d1.customers = d2.customers)
    (cid : Nat) : findCustomer d1 cid = findCustomer d2 cid := by
  unfold findCustomer; rw [h]


lemma trackCancellation_ok (db : DB) (cid : Nat) (c : Customer)
    (hc : findCustomer db cid = some c) :
    ∃ db2, trackCancellation db cid = .ok db2 ∧ db2.orders = db.orders ∧
      db2.loyalty_transactions = db.loyalty_transactions ∧
      db2.loyalty_points = db.loyalty_points := by
  have hc' : db.customers.find? (fun x => x.id == cid) = some c := hc
  have hcid : c.id = cid := by
    simpa using @List.find?_some _ (fun x => x.id == cid) c db.customers hc'
  have h1 : findCustomer { db with customers := db.customers.map (fun c =>
      if c.id == cid then { c with cancelled_count := c.cancelled_count + 1 } else c) } cid
      = some { c with cancelled_count := c.cancelled_count + 1 } := by
    rw [findCustomer_map db cid (fun x => { x with cancelled_count := x.cancelled_count + 1 })
      (fun _ => rfl), hc]
    simp [hcid]
  unfold trackCancellation
  simp only
  rw [h1]
  simp only
  split
  · split
    · exact ⟨_, rfl, rfl, rfl, rfl⟩
    · exact ⟨_, rfl, rfl, rfl, rfl⟩
  · exact ⟨_, rfl, rfl, rfl, rfl⟩

/-- Inversion: a successful checkout can only have come from the
success branch, so it committed exactly `checkoutDbOf` and returned the
fresh order id. -/
lemma checkout_ok_inv (db : DB) (cid : Nat) (cart : List (Nat × Nat)) (f : CheckoutForm)
    (sp : SessionPromo) (db' : DB) (oid' : Nat)
    (h : checkout db cid cart f sp = .ok (db', oid')) :
    db' = checkoutDbOf db cid cart f sp ∧ oid' = newOrderIdOf db cid cart f sp := by
  unfold checkout at h
  repeat' split at h
  all_goals simp_all

/-- A successful checkout's `orders` table is the old one plus the
single new row. -/
lemma checkoutDbOf_orders (db : DB) (cid : Nat) (cart : List (Nat × Nat)) (f : CheckoutForm)
    (sp : SessionPromo) :
    (checkoutDbOf db cid cart f sp).orders = db.orders ++ [newOrderOf db cid cart f sp] := by
  unfold checkoutDbOf
  rw [(insertItemsAndDebit_frame _ _ _).2.2.2.1]
  show (giftStepOf db cid cart f sp).1.orders ++ _ = _
  congr 1
  unfold giftStepOf
  rw [(giftPhase_frame _ _ _ _).2.2.2.2.1]
  exact (promoDb_frame db sp).2.2.2.2.1

/-- A transition to `confirmed`/`preparing`/`ready` whose
payment-verification guard does not fire simply sets the status. -/
lemma transition_ok_guard_free (db : DB) (oid : Nat) (o : Order) (s : String)
    (ho : findOrder db oid = some o)
    (hs3 : s = "confirmed" ∨ s = "preparing" ∨ s = "ready")
    (hguard : ¬(o.payment_method ≠ "" ∧ o.payment_method ≠ "Cash" ∧
      o.payment_verified = false)) :
    admin_update_order_status db oid s = .ok (setOrderStatus db oid s) ∧
      orderStatus (setOrderStatus db oid s) oid = some s := by
  have ho' : db.orders.find? (fun x => x.id == oid) = some o := ho
  have hpid : o.id = oid := by
    simpa using @List.find?_some _ (fun x => x.id == oid) o db.orders ho'
  have hmem : s ∈ valid_statuses := by
    rcases hs3 with h | h | h <;> simp [valid_statuses, h]
  have hnc : s ≠ "completed" := by rcases hs3 with h | h | h <;> simp [h]
  have hnx : s ≠ "cancelled" := by rcases hs3 with h | h | h <;> simp [h]
  constructor
  · unfold admin_update_order_status
    rw [if_neg (not_not_intro hmem), ho]
    simp only
    rw [if_neg (fun hand => hguard hand.2), if_neg (fun hand => hnx hand.1),
      if_neg (fun hand => hnc hand.1)]
  · unfold orderStatus
    rw [findOrder_setOrderStatus, ho]
    simp [hpid]

/-- Evaluation of the spec's SAVE10 scenario checkout. -/
lemma c8_checkout_eval : checkout c8Db 1 [(1, 2)] cashForm spSave10 = .ok (c8DbAfter, 1) := by
  norm_num [checkout, c8Db, c8DbAfter, emptyDB, cashForm, spSave10, findCustomer,
    check_blacklist, truthyN, truthyS, cartTotal, cartItems, checkoutDiscount, promoDb,
    bumpPromoUsed, giftPhase, finalTotalOf, discountOf, giftAmtOf, giftStepOf, newOrderIdOf,
    newOrderOf, checkoutDbOf, mkCheckoutOrder, insertItemsAndDebit, debitRecipes, usageStep,
    List.find?, List.filterMap, List.filter, List.foldl]
  simp
  norm_num

/-- Evaluation of the gift-card checkout for C9. -/
lemma c9_checkout_eval : checkout c9Db 1 [(1, 1)] giftForm noPromo = .ok (c9DbAfter, 1) := by
  norm_num [checkout, c9Db, c9DbAfter, c9Card, emptyDB, giftForm, noPromo, findCustomer,
    check_blacklist, findGiftCard, truthyN, truthyS, cartTotal, cartItems, checkoutDiscount,
    promoDb, bumpPromoUsed, giftPhase, giftCardStep, finalTotalOf, discountOf, giftAmtOf,
    giftStepOf, newOrderIdOf, newOrderOf, checkoutDbOf, mkCheckoutOrder, strEndsWith,
    insertItemsAndDebit, debitRecipes, usageStep,
    List.find?, List.filterMap, List.filter, List.foldl]
  simp
  decide

/-- A customer with any active blacklist row matching their id is
rejected by checkout with the blacklist error. -/
lemma checkout_rejected_of_active_blacklist (db : DB) (cid : Nat) (c : Customer)
    (hc : findCustomer db cid = some c)
    (hcid0 : cid ≠ 0)
    (hact : activeBlacklistFor db cid = true) :
    ∀ (cart : List (Nat × Nat)) (f : CheckoutForm) (sp : SessionPromo), cart ≠ [] →
      checkout db cid cart f sp = .error .blacklisted := by
  intro cart f sp hcart
  have htr : truthyN (some cid) = true := by simpa [truthyN] using hcid0
  have hsome : (db.blacklist.find? (fun b => b.is_active &&
      ((truthyN (some cid) && b.customer_id == some cid) ||
       (c.email != "" && b.email == c.email) ||
       (c.phone != "" && b.phone == c.phone)))).isSome = true := by
    unfold activeBlacklistFor at hact
    obtain ⟨b, hb⟩ := Option.isSome_iff_exists.mp hact
    have hbm : b ∈ db.blacklist :=
      List.mem_of_find?_eq_some hb
    have hbp : (b.is_active && b.customer_id == some cid) = true :=
      @List.find?_some _ (fun b => b.is_active && b.customer_id == some cid) b db.blacklist hb
    rw [List.find?_isSome]
    refine ⟨b, hbm, ?_⟩
    simp only [Bool.and_eq_true] at hbp
    simp [hbp.1, hbp.2, htr]
  obtain ⟨b, hbl⟩ := Option.isSome_iff_exists.mp hsome
  have hcb : check_blacklist db (some cid) c.email c.phone = some b := by
    unfold check_blacklist
    rw [if_neg (by simp [htr])]
    exact hbl
  unfold checkout
  rw [if_neg hcart, hc]
  simp only
  rw [hcb]

/-- C7 no-show clause: the third no-show inserts an active blacklist
row (absent any prior row) and blocks the next checkout. -/
lemma c7_noshow_threshold (db : DB) (oid : Nat) (o : Order) (c : Customer)
    (ho : findOrder db oid = some o)
    (hc : findCustomer db o.customer_id = some c)
    (h2 : c.no_show_count = 2)
    (hcid0 : o.customer_id ≠ 0)
    (hno : db.blacklist.find? (fun b => b.customer_id == some o.customer_id) = none) :
    ∃ db', admin_mark_no_show db oid = .ok db' ∧
      activeBlacklistFor db' o.customer_id = true ∧
      ∀ (cart : List (Nat × Nat)) (f : CheckoutForm) (sp : SessionPromo), cart ≠ [] →
        checkout db' o.customer_id cart f sp = .error .blacklisted := by
  have hc' : db.customers.find? (fun x => x.id == o.customer_id) = some c := hc
  have hcid : c.id = o.customer_id := by
    simpa using @List.find?_some _ (fun x => x.id == o.customer_id) c db.customers hc'
  have hc1 : findCustomer { db with customers := db.customers.map (fun x =>
      if x.id == o.customer_id then { x with no_show_count := x.no_show_count + 1 } else x) }
      o.customer_id = some { c with no_show_count := c.no_show_count + 1 } := by
    rw [findCustomer_map db o.customer_id
      (fun x => { x with no_show_count := x.no_show_count + 1 }) (fun _ => rfl), hc]
    simp [hcid]
  unfold admin_mark_no_show
  rw [ho]
  simp only
  rw [hc1]
  simp only
  split
  · split
    · next hfound =>
      rw [show ({ db with customers := db.customers.map (fun x =>
          if x.id == o.customer_id then { x with no_show_count := x.no_show_count + 1 }
          else x) } : DB).blacklist.find? (fun b => b.customer_id == some o.customer_id) = none
        from hno] at hfound
      simp at hfound
    · refine ⟨_, rfl, ?_, ?_⟩
      · unfold activeBlacklistFor
        rw [List.find?_isSome]
        refine ⟨⟨some o.customer_id, c.email, c.phone, "Multiple no-shows (3+)",
          c.no_show_count + 1, 0, true⟩, ?_, by simp⟩
        simp [setOrderStatus]
      · intro cart f sp hcart
        refine checkout_rejected_of_active_blacklist _ o.customer_id
          { c with no_show_count := c.no_show_count + 1 } ?_ hcid0 ?_ cart f sp hcart
        · exact hc1
        unfold activeBlacklistFor
        rw [List.find?_isSome]
        refine ⟨⟨some o.customer_id, c.email, c.phone, "Multiple no-shows (3+)",
          c.no_show_count + 1, 0, true⟩, ?_, by simp⟩
        simp [setOrderStatus]
  · next hlt =>
    rw [h2] at hlt
    omega

/-- C7 cancellation clause: the fifth cancellation inserts an active
blacklist row (absent any prior row) and blocks the next checkout. -/
lemma c7_cancel_threshold (db : DB) (oid : Nat) (o : Order) (c : Customer)
    (ho : findOrder db oid = some o)
    (hst : o.status ≠ "cancelled")
    (hc : findCustomer db o.customer_id = some c)
    (h4 : c.cancelled_count = 4)
    (hcid0 : o.customer_id ≠ 0)
    (hno : db.blacklist.find? (fun b => b.customer_id == some o.customer_id) = none) :
    ∃ db', admin_update_order_status db oid "cancelled" = .ok db' ∧
      activeBlacklistFor db' o.customer_id = true ∧
      ∀ (cart : List (Nat × Nat)) (f : CheckoutForm) (sp : SessionPromo), cart ≠ [] →
        checkout db' o.customer_id cart f sp = .error .blacklisted := by
  have hc' : db.customers.find? (fun x => x.id == o.customer_id) = some c := hc
  have hcid : c.id = o.customer_id := by
    simpa using @List.find?_some _ (fun x => x.id == o.customer_id) c db.customers hc'
  have hc2 : findCustomer (setOrderStatus db oid "cancelled") o.customer_id = some c := hc
  have hc21 : findCustomer { setOrderStatus db oid "cancelled" with
      customers := (setOrderStatus db oid "cancelled").customers.map (fun x =>
        if x.id == o.customer_id then { x with cancelled_count := x.cancelled_count + 1 }
        else x) } o.customer_id = some { c with cancelled_count := c.cancelled_count + 1 } := by
    rw [findCustomer_map (setOrderStatus db oid "cancelled") o.customer_id
      (fun x => { x with cancelled_count := x.cancelled_count + 1 }) (fun _ => rfl), hc2]
    simp [hcid]
  unfold admin_update_order_status
  rw [if_neg (by simp [valid_statuses]), ho]
  simp only
  rw [if_neg (by simp), if_pos ⟨trivial, hst⟩, if_neg (by simp)]
  unfold trackCancellation
  simp only
  rw [hc21]
  simp only
  split
  · split
    · next hfound =>
      rw [show ({ setOrderStatus db oid "cancelled" with
          customers := (setOrderStatus db oid "cancelled").customers.map (fun x =>
            if x.id == o.customer_id then { x with cancelled_count := x.cancelled_count + 1 }
            else x) } : DB).blacklist.find?
            (fun b => b.customer_id == some o.customer_id) = none from hno] at hfound
      simp at hfound
    · refine ⟨_, rfl, ?_, ?_⟩
      · unfold activeBlacklistFor
        rw [List.find?_isSome]
        refine ⟨⟨some o.customer_id, c.email, c.phone, "Multiple cancellations (5+)",
          0, c.cancelled_count + 1, true⟩, ?_, by simp⟩
        simp
      · intro cart f sp hcart
        refine checkout_rejected_of_active_blacklist _ o.customer_id
          { c with cancelled_count := c.cancelled_count + 1 } ?_ hcid0 ?_ cart f sp hcart
        · exact hc21
        unfold activeBlacklistFor
        rw [List.find?_isSome]
        refine ⟨⟨some o.customer_id, c.email, c.phone, "Multiple cancellations (5+)",
          0, c.cancelled_count + 1, true⟩, ?_, by simp⟩
        simp
  · next hlt =>
    rw [h4] at hlt
    omega

/-- C7: below 3 no-shows, `markNoShow` never touches the blacklist. -/
lemma c7_noshow_below (db : DB) (oid : Nat) (o : Order) (c : Customer)
    (ho : findOrder db oid = some o)
    (hc : findCustomer db o.customer_id = some c)
    (hlt : c.no_show_count + 1 < 3) :
    ∃ db', admin_mark_no_show db oid = .ok db' ∧ db'.blacklist = db.blacklist := by
  have hc' : db.customers.find? (fun x => x.id == o.customer_id) = some c := hc
  have hcid : c.id = o.customer_id := by
    simpa using @List.find?_some _ (fun x => x.id == o.customer_id) c db.customers hc'
  have hc1 : findCustomer { db with customers := db.customers.map (fun x =>
      if x.id == o.customer_id then { x with no_show_count := x.no_show_count + 1 } else x) }
      o.customer_id = some { c with no_show_count := c.no_show_count + 1 } := by
    rw [findCustomer_map db o.customer_id
      (fun x => { x with no_show_count := x.no_show_count + 1 }) (fun _ => rfl), hc]
    simp [hcid]
  unfold admin_mark_no_show
  rw [ho]
  simp only
  rw [hc1]
  simp only
  rw [if_neg (by omega)]
  exact ⟨_, rfl, rfl⟩

/-- C7: below 5 cancellations, cancelling never touches the
blacklist. -/
lemma c7_cancel_below (db : DB) (oid : Nat) (o : Order) (c : Customer)
    (ho : findOrder db oid = some o)
    (hst : o.status ≠ "cancelled")
    (hc : findCustomer db o.customer_id = some c)
    (hlt : c.cancelled_count + 1 < 5) :
    ∃ db', admin_update_order_status db oid "cancelled" = .ok db' ∧
      db'.blacklist = db.blacklist := by
  have hc' : db.customers.find? (fun x => x.id == o.customer_id) = some c := hc
  have hcid : c.id = o.customer_id := by
    simpa using @List.find?_some _ (fun x => x.id == o.customer_id) c db.customers hc'
  have hc2 : findCustomer (setOrderStatus db oid "cancelled") o.customer_id = some c := hc
  have hc21 : findCustomer { setOrderStatus db oid "cancelled" with
      customers := (setOrderStatus db oid "cancelled").customers.map (fun x =>
        if x.id == o.customer_id then { x with cancelled_count := x.cancelled_count + 1 }
        else x) } o.customer_id = some { c with cancelled_count := c.cancelled_count + 1 } := by
    rw [findCustomer_map (setOrderStatus db oid "cancelled") o.customer_id
      (fun x => { x with cancelled_count := x.cancelled_count + 1 }) (fun _ => rfl), hc2]
    simp [hcid]
  unfold admin_update_order_status
  rw [if_neg (by simp [valid_statuses]), ho]
  simp only
  rw [if_neg (by simp), if_pos ⟨trivial, hst⟩, if_neg (by simp)]
  unfold trackCancellation
  simp only
  rw [hc21]
  simp only
  rw [if_neg (by omega)]
  exact ⟨_, rfl, rfl⟩

/-! ## The claims -/

/-- **C1** — the claim says a checkout whose cart needs more of an
ingredient than is in stock is rejected with no order inserted and
stock unchanged (spec scenario: Milk 0.2 L, 0.2 L per Latte, 2 Lattes
→ rejected).  The code has no stock-sufficiency check at all: on the
spec's own scenario the order IS created and Milk's stock is debited to
−0.2 L, violating the claimed non-negativity invariant.  This theorem
evaluates the embedded `checkout` on that exact scenario. -/
theorem C1_insufficient_stock_order_still_created :
    checkout milkDb 1 [(1, 2)] cashForm noPromo = .ok (milkDbAfter, 1) ∧
    stockOf milkDb 1 = some (1/5) ∧
    stockOf milkDbAfter 1 = some (-(1/5)) ∧
    orderStatus milkDbAfter 1 = some "pending" := by
  norm_num [checkout, milkDb, milkDbAfter, emptyDB, cashForm, noPromo, findCustomer, findOrder,
    check_blacklist, truthyN, truthyS, cartTotal, cartItems, checkoutDiscount, promoDb, giftPhase,
    finalTotalOf, discountOf, giftAmtOf, giftStepOf, newOrderIdOf, newOrderOf, checkoutDbOf,
    mkCheckoutOrder, insertItemsAndDebit, debitRecipes, usageStep, stockOf, orderStatus,
    List.find?, List.filterMap, List.filter, List.foldl]
  rfl

/-- **C2** — completing the same order twice awards loyalty points
exactly once: both calls succeed, afterwards there is exactly one
`'earned'` ledger row for the order, and the customer's balance rose by
`⌊total_amount⌋` once.  Hypotheses: the order exists and is not yet
completed, no `'earned'` row exists for it yet, the customer has at
most one `loyalty_points` row (the schema's `UNIQUE(customer_id)`), and
the total is non-negative (so Python's `int()` is the floor). -/
theorem C2_double_complete_awards_once (db : DB) (oid : Nat) (o : Order)
    (ho : findOrder db oid = some o)
    (hs : o.status ≠ "completed")
    (he : earnedCount db oid = 0)
    (hu : (db.loyalty_points.filter (fun r => r.customer_id == o.customer_id)).length ≤ 1)
    (ht : 0 ≤ o.total_amount) :
    ∃ db1 db2,
      admin_update_order_status db oid "completed" = .ok db1 ∧
      admin_update_order_status db1 oid "completed" = .ok db2 ∧
      earnedCount db2 oid = 1 ∧
      pointsBalance db2 o.customer_id = pointsBalance db o.customer_id + ⌊o.total_amount⌋ := by
  have ho' : db.orders.find? (fun x => x.id == oid) = some o := ho
  have hid : (o.id == oid) = true := @List.find?_some _ (fun x => x.id == oid) o db.orders ho'
  set db1 := awardLoyalty (setOrderStatus db oid "completed") oid o.customer_id
      (pyInt o.total_amount) with hdb1
  have h1 : admin_update_order_status db oid "completed" = .ok db1 := by
    unfold admin_update_order_status
    rw [if_neg (by simp [valid_statuses]), ho]
    simp only
    rw [if_neg (by simp), if_neg (by simp), if_pos (by simp [hs])]
  have hno : (setOrderStatus db oid "completed").loyalty_transactions.find? (fun t =>
      t.order_id == some oid && t.transaction_type == "earned") = none :=
    earned_find?_eq_none _ _ he
  have hpid : o.id = oid := by simpa using hid
  have ho1 : findOrder db1 oid = some { o with status := "completed" } := by
    rw [hdb1, findOrder_eq_of_orders _ (setOrderStatus db oid "completed")
      (awardLoyalty_orders _ _ _ _) oid, findOrder_setOrderStatus, ho]
    simp [hpid]
  have h2 : admin_update_order_status db1 oid "completed" =
      .ok (setOrderStatus db1 oid "completed") := by
    unfold admin_update_order_status
    rw [if_neg (by simp [valid_statuses]), ho1]
    simp only
    rw [if_neg (by simp), if_neg (by simp), if_neg (by simp)]
  refine ⟨db1, setOrderStatus db1 oid "completed", h1, h2, ?_, ?_⟩
  · show earnedCount db1 oid = 1
    rw [hdb1, earnedCount_awardLoyalty _ _ _ _ hno]
    exact congrArg (· + 1) he
  · show pointsBalance db1 o.customer_id = pointsBalance db o.customer_id + ⌊o.total_amount⌋
    rw [hdb1, pointsBalance_awardLoyalty _ _ _ _ hno hu]
    rw [show pyInt o.total_amount = ⌊o.total_amount⌋ from if_pos ht]
    rfl

/-- Witness for C2 at a concrete store: customer 7's ₱7.50 pending
order, balance 10 → 17 after a double completion. -/
theorem C2_double_complete_awards_once_witness :
    ∃ db1 db2,
      admin_update_order_status c2Db 1 "completed" = .ok db1 ∧
      admin_update_order_status db1 1 "completed" = .ok db2 ∧
      earnedCount db2 1 = 1 ∧
      pointsBalance db2 c2Order.customer_id =
        pointsBalance c2Db c2Order.customer_id + ⌊c2Order.total_amount⌋ :=
  C2_double_complete_awards_once c2Db 1 c2Order rfl (by decide) rfl (by decide) (by norm_num [c2Order])

/-- **C10** — `markNoShow` increments only the customer's
`no_show_count` and sets the order's status to `'cancelled'` directly
(it does not route through the status-update handler), so every
customer's `cancelled_count` is left unchanged: no-show events feed
only the 3-no-show threshold, never the 5-cancellation one. -/
theorem C10_mark_no_show_only_no_show_count (db : DB) (oid : Nat) (o : Order) (c : Customer)
    (ho : findOrder db oid = some o)
    (hc : findCustomer db o.customer_id = some c) :
    ∃ db', admin_mark_no_show db oid = .ok db' ∧
      findCustomer db' o.customer_id = some { c with no_show_count := c.no_show_count + 1 } ∧
      db'.customers.map (fun x => x.cancelled_count) =
        db.customers.map (fun x => x.cancelled_count) ∧
      orderStatus db' oid = some "cancelled" := by
  have ho' : db.orders.find? (fun x => x.id == oid) = some o := ho
  have hid : (o.id == oid) = true := @List.find?_some _ (fun x => x.id == oid) o db.orders ho'
  have hpid : o.id = oid := by simpa using hid
  have hc' : db.customers.find? (fun x => x.id == o.customer_id) = some c := hc
  have hcid : c.id = o.customer_id := by
    simpa using @List.find?_some _ (fun x => x.id == o.customer_id) c db.customers hc'
  set db1 : DB := { db with customers := db.customers.map (fun x =>
      if x.id == o.customer_id then { x with no_show_count := x.no_show_count + 1 } else x) }
    with hdb1
  have hcust1 : db1.customers.map (fun x => x.cancelled_count) =
      db.customers.map (fun x => x.cancelled_count) := by
    rw [hdb1]
    show (db.customers.map _).map _ = _
    rw [List.map_map]
    congr 1
    funext x
    by_cases h : x.id = o.customer_id <;> simp [h]
  have hc1 : findCustomer db1 o.customer_id =
      some { c with no_show_count := c.no_show_count + 1 } := by
    rw [hdb1, findCustomer_map db o.customer_id
      (fun x => { x with no_show_count := x.no_show_count + 1 }) (fun _ => rfl), hc]
    simp [hcid]
  unfold admin_mark_no_show
  rw [ho]
  simp only
  rw [hc1]
  simp only
  refine ⟨_, rfl, ?_, ?_, ?_⟩
  · have h2 : (setOrderStatus (if 3 ≤ c.no_show_count + 1 then
        (if (db1.blacklist.find? (fun b => b.customer_id == some o.customer_id)).isSome
          then db1
          else { db1 with blacklist := db1.blacklist ++
            [⟨some o.customer_id, c.email, c.phone, "Multiple no-shows (3+)",
              c.no_show_count + 1, 0, true⟩] })
        else db1) oid "cancelled").customers = db1.customers := by
      split
      · split <;> rfl
      · rfl
    rw [findCustomer_eq_of_customers _ db1 h2]
    exact hc1
  · have h2 : (setOrderStatus (if 3 ≤ c.no_show_count + 1 then
        (if (db1.blacklist.find? (fun b => b.customer_id == some o.customer_id)).isSome
          then db1
          else { db1 with blacklist := db1.blacklist ++
            [⟨some o.customer_id, c.email, c.phone, "Multiple no-shows (3+)",
              c.no_show_count + 1, 0, true⟩] })
        else db1) oid "cancelled").customers = db1.customers := by
      split
      · split <;> rfl
      · rfl
    rw [h2]
    exact hcust1
  · have h3 : (if 3 ≤ c.no_show_count + 1 then
        (if (db1.blacklist.find? (fun b => b.customer_id == some o.customer_id)).isSome
          then db1
          else { db1 with blacklist := db1.blacklist ++
            [⟨some o.customer_id, c.email, c.phone, "Multiple no-shows (3+)",
              c.no_show_count + 1, 0, true⟩] })
        else db1).orders = db.orders := by
      split
      · split <;> rfl
      · rfl
    unfold orderStatus
    rw [findOrder_setOrderStatus, findOrder_eq_of_orders _ db h3, ho]
    simp [hpid]

/-- Witness for C10: marking customer 7's order no-show bumps their
no-show count 0 → 1 and cancels the order, cancellation counts
untouched. -/
theorem C10_mark_no_show_only_no_show_count_witness :
    ∃ db', admin_mark_no_show c2Db 1 = .ok db' ∧
      findCustomer db' c2Order.customer_id =
        some { c2Cust with no_show_count := c2Cust.no_show_count + 1 } ∧
      db'.customers.map (fun x => x.cancelled_count) =
        c2Db.customers.map (fun x => x.cancelled_count) ∧
      orderStatus db' 1 = some "cancelled" :=
  C10_mark_no_show_only_no_show_count c2Db 1 c2Order c2Cust rfl rfl

/-- **C3 counterexample** — the claim says `'completed'` and
`'cancelled'` are terminal: any transition away must fail and leave the
status unchanged.  On a concrete completed cash order, the status
handler happily moves it back to `'pending'`: terminal states are not
enforced anywhere in `admin_update_order_status`. -/
theorem C3_counterexample :
    orderStatus termDb 1 = some "completed" ∧
    admin_update_order_status termDb 1 "pending" = .ok termDbAfter ∧
    orderStatus termDbAfter 1 = some "pending" := by
  refine ⟨rfl, ?_, rfl⟩
  norm_num [admin_update_order_status, termDb, termDbAfter, termOrder, emptyDB, valid_statuses,
    findOrder, setOrderStatus, orderStatus, List.find?]
  intro h1 h2
  exact absurd h1 (by decide)

/-- **C3 amended** — the code enforces no transition table: an order in
a terminal state (`'completed'`/`'cancelled'`) is moved to ANY valid
target status, provided only that the payment-verification guard does
not fire (and the customer row exists, which the cancellation tracker
dereferences).  The status afterwards is the requested one. -/
theorem C3_terminal_states_not_enforced (db : DB) (oid : Nat) (o : Order) (s : String)
    (ho : findOrder db oid = some o)
    (hterm : o.status = "completed" ∨ o.status = "cancelled")
    (hs : s ∈ valid_statuses)
    (hguard : ¬((s = "confirmed" ∨ s = "preparing" ∨ s = "ready") ∧
      o.payment_method ≠ "" ∧ o.payment_method ≠ "Cash" ∧ o.payment_verified = false))
    (hcust : ∃ c, findCustomer db o.customer_id = some c) :
    ∃ db', admin_update_order_status db oid s = .ok db' ∧ orderStatus db' oid = some s := by
  obtain ⟨c, hc⟩ := hcust
  have ho' : db.orders.find? (fun x => x.id == oid) = some o := ho
  have hpid : o.id = oid := by
    simpa using @List.find?_some _ (fun x => x.id == oid) o db.orders ho'
  set db1 := setOrderStatus db oid s with hdb1
  have hst1 : orderStatus db1 oid = some s := by
    unfold orderStatus
    rw [hdb1, findOrder_setOrderStatus, ho]
    simp [hpid]
  set db2 := if s = "completed" ∧ o.status ≠ "completed" then
      awardLoyalty db1 oid o.customer_id (pyInt o.total_amount) else db1 with hdb2
  have hord2 : db2.orders = db1.orders := by
    rw [hdb2]; split
    · exact awardLoyalty_orders _ _ _ _
    · rfl
  have hst2 : orderStatus db2 oid = some s := by
    unfold orderStatus
    rw [findOrder_eq_of_orders db2 db1 hord2]
    exact hst1
  have hcust2 : findCustomer db2 o.customer_id = some c := by
    have : db2.customers = db.customers := by
      rw [hdb2]; split
      · exact awardLoyalty_customers _ _ _ _
      · rfl
    rw [findCustomer_eq_of_customers db2 db this]
    exact hc
  unfold admin_update_order_status
  rw [if_neg (not_not_intro hs), ho]
  simp only
  rw [if_neg hguard]
  rw [← hdb1, ← hdb2]
  split
  · obtain ⟨db3, h3, h3o, -, -⟩ := trackCancellation_ok db2 o.customer_id c hcust2
    refine ⟨db3, h3, ?_⟩
    unfold orderStatus
    rw [findOrder_eq_of_orders db3 db2 h3o]
    exact hst2
  · exact ⟨db2, rfl, hst2⟩

/-- Witness for the amended C3 at the concrete completed order. -/
theorem C3_terminal_states_not_enforced_witness :
    ∃ db', admin_update_order_status termDb 1 "pending" = .ok db' ∧
      orderStatus db' 1 = some "pending" :=
  C3_terminal_states_not_enforced termDb 1 termOrder "pending" rfl (Or.inl rfl)
    (by decide) (by decide) ⟨_, rfl⟩

/-- **C4** — the payment-verification guard: (1) a non-cash order
(non-empty payment method other than `'Cash'`) with `payment_verified`
false is refused for `confirmed`/`preparing`/`ready` with no change
(the handler errors before any write); (2) after `admin_verify_payment`
the same transition succeeds and sets the status; (3) cash orders are
always eligible; (4) any payment-verified order is eligible; and (5) an
order fully covered by a gift card at checkout (positive contribution,
zero final due) is created with method `'Gift Card'` and
`payment_verified` already true — so such orders are always eligible by
(4). -/
theorem C4_unverified_noncash_guard (db : DB) (oid : Nat) (o : Order) (s : String)
    (ho : findOrder db oid = some o)
    (hs3 : s = "confirmed" ∨ s = "preparing" ∨ s = "ready") :
    (o.payment_method ≠ "" → o.payment_method ≠ "Cash" → o.payment_verified = false →
      admin_update_order_status db oid s = .error .paymentNotVerified) ∧
    (∃ dbv db', admin_verify_payment db oid = .ok dbv ∧
      admin_update_order_status dbv oid s = .ok db' ∧ orderStatus db' oid = some s) ∧
    (o.payment_method = "Cash" →
      ∃ db', admin_update_order_status db oid s = .ok db' ∧ orderStatus db' oid = some s) ∧
    (o.payment_verified = true →
      ∃ db', admin_update_order_status db oid s = .ok db' ∧ orderStatus db' oid = some s) ∧
    (∀ (db0 : DB) (cid : Nat) (cart : List (Nat × Nat)) (f : CheckoutForm)
        (sp : SessionPromo) (db' : DB) (oid' : Nat),
      checkout db0 cid cart f sp = .ok (db', oid') →
      0 < giftAmtOf db0 cid cart f sp → finalTotalOf db0 cid cart f sp = 0 →
      ∃ o', o' ∈ db'.orders ∧ o'.id = oid' ∧
        o'.payment_method = "Gift Card" ∧ o'.payment_verified = true) := by
  have ho' : db.orders.find? (fun x => x.id == oid) = some o := ho
  have hpid : o.id = oid := by
    simpa using @List.find?_some _ (fun x => x.id == oid) o db.orders ho'
  have hmem : s ∈ valid_statuses := by
    rcases hs3 with h | h | h <;> simp [valid_statuses, h]
  refine ⟨?_, ?_, ?_, ?_, ?_⟩
  · intro hpm hpmc hv
    unfold admin_update_order_status
    rw [if_neg (not_not_intro hmem), ho]
    simp only
    rw [if_pos ⟨hs3, hpm, hpmc, hv⟩]
  · have hov : findOrder { db with orders := db.orders.map (fun x =>
        if x.id == oid then { x with payment_verified := true } else x) } oid =
        some { o with payment_verified := true } := by
      rw [findOrder_mapVerified, ho]
      simp [hpid]
    have hver : admin_verify_payment db oid = .ok { db with orders := db.orders.map (fun x =>
        if x.id == oid then { x with payment_verified := true } else x) } := by
      unfold admin_verify_payment
      rw [ho]
    obtain ⟨h1, h2⟩ := transition_ok_guard_free _ oid { o with payment_verified := true } s hov
      hs3 (by simp)
    exact ⟨_, _, hver, h1, h2⟩
  · intro hcash
    obtain ⟨h1, h2⟩ := transition_ok_guard_free db oid o s ho hs3
      (fun hand => hand.2.1 hcash)
    exact ⟨_, h1, h2⟩
  · intro hv
    obtain ⟨h1, h2⟩ := transition_ok_guard_free db oid o s ho hs3
      (fun hand => by rw [hv] at hand; exact absurd hand.2.2 (by simp))
    exact ⟨_, h1, h2⟩
  · intro db0 cid cart f sp db' oid' hchk hg hf
    obtain ⟨hdb, hoid⟩ := checkout_ok_inv db0 cid cart f sp db' oid' hchk
    subst hdb
    subst hoid
    refine ⟨newOrderOf db0 cid cart f sp, ?_, rfl, ?_, ?_⟩
    · rw [checkoutDbOf_orders]
      exact List.mem_append_right _ (List.mem_singleton_self _)
    · show (mkCheckoutOrder _ _ _ _ _ _ _ _).payment_method = _
      unfold mkCheckoutOrder
      simp only
      rw [if_pos ⟨hf, hg⟩]
    · show (mkCheckoutOrder _ _ _ _ _ _ _ _).payment_verified = _
      unfold mkCheckoutOrder
      simp only
      rw [if_pos ⟨hf, hg⟩]

/-- Witness for C4: confirming an unverified GCash order is refused. -/
theorem C4_unverified_noncash_guard_witness :
    admin_update_order_status c4Db 1 "confirmed" = .error .paymentNotVerified :=
  (C4_unverified_noncash_guard c4Db 1 c4Order "confirmed" rfl (Or.inl rfl)).1
    (by decide) (by decide) rfl

/-- **C5 counterexample** — the claim says a promo that is at its usage
cap AT ORDER-CREATION TIME is rejected with no ledger mutation.  In the
code, checkout performs NO promo re-validation: with promotion CAP1
already at its cap (`used_count = max_uses = 1`) — a state `apply_promo`
itself now rejects — a checkout carrying the session promo still
succeeds, applies the discount, and increments `used_count` to 2. -/
theorem C5_counterexample :
    (∃ p, findPromotion c5Db "CAP1" = some p ∧ p.max_uses = some 1 ∧ p.used_count = 1) ∧
    apply_promo c5Db "CAP1" [(1, 1)] "2026-10-12" = .error .usageLimitReached ∧
    checkout c5Db 1 [(1, 1)] cashForm spCap = .ok (c5DbAfter, 1) ∧
    (∃ p, findPromotion c5DbAfter "CAP1" = some p ∧ p.used_count = 2) ∧
    orderStatus c5DbAfter 1 = some "pending" := by
  refine ⟨⟨c5Promo, rfl, rfl, rfl⟩, ?_, ?_, ⟨_, rfl, rfl⟩, rfl⟩
  · rfl
  · norm_num [checkout, c5Db, c5DbAfter, c5Promo, emptyDB, cashForm, spCap, findCustomer,
      check_blacklist, truthyN, truthyS, cartTotal, cartItems, checkoutDiscount, promoDb,
      bumpPromoUsed, giftPhase, finalTotalOf, discountOf, giftAmtOf, giftStepOf, newOrderIdOf,
      newOrderOf, checkoutDbOf, mkCheckoutOrder, insertItemsAndDebit, debitRecipes, usageStep,
      List.find?, List.filterMap, List.filter, List.foldl]
    simp
    norm_num

/-- **C5 amended** — promo validation (unknown/inactive code, validity
window, usage cap, minimum order) happens only in `apply_promo`, at
application time, each failing check producing the corresponding error;
`apply_promo` never writes to the store (its type shows it returns only
session state), so rejections trivially mutate nothing.  Checkout
itself re-validates nothing: whenever a checkout with any session promo
code succeeds, the promotions table is exactly the old one with that
code's `used_count` incremented — regardless of the promotion row's
state at order-creation time. -/
theorem C5_promo_validated_at_apply_only (db : DB) (rawCode : String)
    (cart : List (Nat × Nat)) (today : String) (promo : Promotion)
    (hfind : findPromotion db rawCode = some promo)
    (hc : rawCode ≠ "") :
    (∀ (db2 : DB) (code2 : String) (cart2 : List (Nat × Nat)) (today2 : String),
      code2 ≠ "" → findPromotion db2 code2 = none →
      apply_promo db2 code2 cart2 today2 = .error .invalidCode) ∧
    (truthyS promo.start_date = true ∧ today < promo.start_date.getD "" →
      apply_promo db rawCode cart today = .error .notYetActive) ∧
    (¬(truthyS promo.start_date = true ∧ today < promo.start_date.getD "") →
      truthyS promo.end_date = true ∧ promo.end_date.getD "" < today →
      apply_promo db rawCode cart today = .error .expired) ∧
    (¬(truthyS promo.start_date = true ∧ today < promo.start_date.getD "") →
      ¬(truthyS promo.end_date = true ∧ promo.end_date.getD "" < today) →
      truthyN promo.max_uses = true ∧ promo.max_uses.getD 0 ≤ promo.used_count →
      apply_promo db rawCode cart today = .error .usageLimitReached) ∧
    (¬(truthyS promo.start_date = true ∧ today < promo.start_date.getD "") →
      ¬(truthyS promo.end_date = true ∧ promo.end_date.getD "" < today) →
      ¬(truthyN promo.max_uses = true ∧ promo.max_uses.getD 0 ≤ promo.used_count) →
      promo.min_order_amount ≠ 0 ∧ cartTotal db cart < promo.min_order_amount →
      apply_promo db rawCode cart today = .error .minOrderNotMet) ∧
    (∀ (db0 : DB) (cid : Nat) (cart0 : List (Nat × Nat)) (f : CheckoutForm)
        (sp : SessionPromo) (db' : DB) (oid' : Nat),
      checkout db0 cid cart0 f sp = .ok (db', oid') → truthyS sp.promo_code = true →
      db'.promotions = (bumpPromoUsed db0 (sp.promo_code.getD "")).promotions) := by
  refine ⟨?_, ?_, ?_, ?_, ?_, ?_⟩
  · intro db2 code2 cart2 today2 h2 hnone
    unfold apply_promo
    rw [if_neg h2, hnone]
  · intro hcond
    unfold apply_promo
    rw [if_neg hc, hfind]
    simp only
    rw [if_pos hcond]
  · intro hn1 hcond
    unfold apply_promo
    rw [if_neg hc, hfind]
    simp only
    rw [if_neg hn1, if_pos hcond]
  · intro hn1 hn2 hcond
    unfold apply_promo
    rw [if_neg hc, hfind]
    simp only
    rw [if_neg hn1, if_neg hn2, if_pos hcond]
  · intro hn1 hn2 hn3 hcond
    unfold apply_promo
    rw [if_neg hc, hfind]
    simp only
    rw [if_neg hn1, if_neg hn2, if_neg hn3, if_pos hcond]
  · intro db0 cid cart0 f sp db' oid' hchk htr
    obtain ⟨hdb, -⟩ := checkout_ok_inv db0 cid cart0 f sp db' oid' hchk
    subst hdb
    show (checkoutDbOf db0 cid cart0 f sp).promotions = _
    unfold checkoutDbOf
    rw [(insertItemsAndDebit_frame _ _ _).2.2.2.2.2.2.1]
    show (giftStepOf db0 cid cart0 f sp).1.promotions = _
    unfold giftStepOf
    rw [(giftPhase_frame _ _ _ _).2.2.2.2.2.2.1]
    unfold promoDb
    rw [if_pos htr]

/-- Witness for the amended C5: `apply_promo` rejects the capped
promotion. -/
theorem C5_promo_validated_at_apply_only_witness :
    apply_promo c5Db "CAP1" [(1, 1)] "2026-10-12" = .error .usageLimitReached :=
  (C5_promo_validated_at_apply_only c5Db "CAP1" [(1, 1)] "2026-10-12" c5Promo rfl
    (by decide)).2.2.2.1 (by decide) (by decide) (by decide)

/-- **C6 counterexample** — the claim says an item with an
under-stocked recipe ingredient is excluded from the browsable menu.
Concretely: item 1 needs 1 unit of ingredient 1, whose stock is 0, yet
`menuListing` (the `menu` route's query — its own comment says "show
ALL items including sold-out ones") returns the item. -/
theorem C6_counterexample :
    c6Db.recipe = [⟨1, 1, 1⟩] ∧
    stockOf c6Db 1 = some 0 ∧
    c6Item.is_available = true ∧
    menuListing c6Db "" "" = [c6Item] := ⟨rfl, rfl, rfl, rfl⟩

/-- **C6 amended** — the menu route filters only on the search and
category parameters; with neither filter set, EVERY `menu_items` row is
listed, regardless of ingredient stock (and even of the `is_available`
flag, which only `add_to_cart` checks). -/
theorem C6_menu_lists_all_items (db : DB) (m : MenuItem)
    (hm : m ∈ db.menu_items) : m ∈ menuListing db "" "" := by
  unfold menuListing
  rw [List.mem_filter]
  exact ⟨hm, rfl⟩

/-- Witness for the amended C6: the zero-stock item is listed. -/
theorem C6_menu_lists_all_items_witness : c6Item ∈ menuListing c6Db "" "" :=
  C6_menu_lists_all_items c6Db c6Item (by simp [c6Db, emptyDB])

/-- **C7 counterexample** — the claim says a customer reaching exactly
3 no-shows gets an active blacklist row and is rejected by the next
checkout.  The insert is suppressed by ANY pre-existing blacklist row,
active or not: customer 1 has a DEACTIVATED row (restriction previously
lifted) and 2 no-shows; the third no-show inserts nothing, no active
row exists afterwards, and the next checkout succeeds (order #2). -/
theorem C7_counterexample :
    admin_mark_no_show c7Db 1 = .ok c7DbAfter ∧
    findCustomer c7DbAfter 1 = some ⟨1, "x@y.z", "0930", true, 3, 0⟩ ∧
    activeBlacklistFor c7DbAfter 1 = false ∧
    checkout c7DbAfter 1 [(1, 1)] cashForm noPromo = .ok (c7DbAfter2, 2) := by
  refine ⟨rfl, rfl, rfl, ?_⟩
  norm_num [checkout, c7Db, c7DbAfter, c7DbAfter2, c7Cust, c7Order, c7OldRow, emptyDB,
    cashForm, noPromo, findCustomer, check_blacklist, truthyN, truthyS, cartTotal, cartItems,
    checkoutDiscount, promoDb, giftPhase, finalTotalOf, discountOf, giftAmtOf, giftStepOf,
    newOrderIdOf, newOrderOf, checkoutDbOf, mkCheckoutOrder, insertItemsAndDebit, debitRecipes,
    usageStep, List.find?, List.filterMap, List.filter, List.foldl]
  simp

/-- **C7 amended** — provided the customer has NO pre-existing
blacklist row (even a deactivated one): the third no-show, and likewise
the fifth cancellation, inserts an active blacklist row and every
subsequent checkout by that customer is rejected with the blacklist
error; below the thresholds (fewer than 3 no-shows and fewer than 5
cancellations after the event) the blacklist is never touched. -/
theorem C7_thresholds_restrict :
    (∀ (db : DB) (oid : Nat) (o : Order) (c : Customer), findOrder db oid = some o →
      findCustomer db o.customer_id = some c → c.no_show_count = 2 → o.customer_id ≠ 0 →
      db.blacklist.find? (fun b => b.customer_id == some o.customer_id) = none →
      ∃ db', admin_mark_no_show db oid = .ok db' ∧
        activeBlacklistFor db' o.customer_id = true ∧
        ∀ (cart : List (Nat × Nat)) (f : CheckoutForm) (sp : SessionPromo), cart ≠ [] →
          checkout db' o.customer_id cart f sp = .error .blacklisted) ∧
    (∀ (db : DB) (oid : Nat) (o : Order) (c : Customer), findOrder db oid = some o →
      o.status ≠ "cancelled" → findCustomer db o.customer_id = some c →
      c.cancelled_count = 4 → o.customer_id ≠ 0 →
      db.blacklist.find? (fun b => b.customer_id == some o.customer_id) = none →
      ∃ db', admin_update_order_status db oid "cancelled" = .ok db' ∧
        activeBlacklistFor db' o.customer_id = true ∧
        ∀ (cart : List (Nat × Nat)) (f : CheckoutForm) (sp : SessionPromo), cart ≠ [] →
          checkout db' o.customer_id cart f sp = .error .blacklisted) ∧
    (∀ (db : DB) (oid : Nat) (o : Order) (c : Customer), findOrder db oid = some o →
      findCustomer db o.customer_id = some c → c.no_show_count + 1 < 3 →
      ∃ db', admin_mark_no_show db oid = .ok db' ∧ db'.blacklist = db.blacklist) ∧
    (∀ (db : DB) (oid : Nat) (o : Order) (c : Customer), findOrder db oid = some o →
      o.status ≠ "cancelled" → findCustomer db o.customer_id = some c →
      c.cancelled_count + 1 < 5 →
      ∃ db', admin_update_order_status db oid "cancelled" = .ok db' ∧
        db'.blacklist = db.blacklist) :=
  ⟨fun db oid o c ho hc h2 h0 hno => c7_noshow_threshold db oid o c ho hc h2 h0 hno,
   fun db oid o c ho hst hc h4 h0 hno => c7_cancel_threshold db oid o c ho hst hc h4 h0 hno,
   fun db oid o c ho hc hlt => c7_noshow_below db oid o c ho hc hlt,
   fun db oid o c ho hst hc hlt => c7_cancel_below db oid o c ho hst hc hlt⟩

/-- Witness for the amended C7: a clean customer's third no-show
restricts them and blocks their checkout. -/
theorem C7_thresholds_restrict_witness :
    ∃ db', admin_mark_no_show c7WDb 1 = .ok db' ∧
      activeBlacklistFor db' 1 = true ∧
      ∀ (cart : List (Nat × Nat)) (f : CheckoutForm) (sp : SessionPromo), cart ≠ [] →
        checkout db' 1 cart f sp = .error .blacklisted :=
  C7_thresholds_restrict.1 c7WDb 1 c7Order c7WCust rfl rfl rfl (by decide) rfl

/-- **C8** — every order row a successful checkout creates satisfies
`total_amount = subtotal − discount_amount`; and under a session
percentage promo the recorded discount is exactly
`min(subtotal × value / 100, subtotal)`, hence never exceeds the
subtotal. -/
theorem C8_discount_clamped_total (db : DB) (cid : Nat) (cart : List (Nat × Nat))
    (f : CheckoutForm) (sp : SessionPromo) (db' : DB) (oid' : Nat)
    (h : checkout db cid cart f sp = .ok (db', oid')) :
    (∃ o', o' ∈ db'.orders ∧ o'.id = oid' ∧
      o'.total_amount = cartTotal db cart - o'.discount_amount) ∧
    (truthyS sp.promo_code = true → sp.discount_type = "percentage" →
      ∃ o', o' ∈ db'.orders ∧ o'.id = oid' ∧
        o'.discount_amount =
          min (cartTotal db cart * sp.discount_value / 100) (cartTotal db cart) ∧
        o'.discount_amount ≤ cartTotal db cart) := by
  obtain ⟨hdb, hoid⟩ := checkout_ok_inv db cid cart f sp db' oid' h
  subst hdb
  subst hoid
  have hmem : newOrderOf db cid cart f sp ∈ (checkoutDbOf db cid cart f sp).orders := by
    rw [checkoutDbOf_orders]
    exact List.mem_append_right _ (List.mem_singleton_self _)
  constructor
  · exact ⟨newOrderOf db cid cart f sp, hmem, rfl, rfl⟩
  · intro hp hty
    refine ⟨newOrderOf db cid cart f sp, hmem, rfl, ?_, ?_⟩
    · show discountOf db cart sp = _
      unfold discountOf checkoutDiscount
      rw [if_pos hp, if_pos hty]
    · show discountOf db cart sp ≤ cartTotal db cart
      unfold discountOf checkoutDiscount
      rw [if_pos hp]
      exact min_le_right _ _

/-- Witness for C8 on the spec's SAVE10 scenario (subtotal 7.00 →
discount 0.70, total 6.30). -/
theorem C8_discount_clamped_total_witness :
    (∃ o', o' ∈ c8DbAfter.orders ∧ o'.id = 1 ∧
      o'.total_amount = cartTotal c8Db [(1, 2)] - o'.discount_amount) ∧
    (truthyS spSave10.promo_code = true → spSave10.discount_type = "percentage" →
      ∃ o', o' ∈ c8DbAfter.orders ∧ o'.id = 1 ∧
        o'.discount_amount =
          min (cartTotal c8Db [(1, 2)] * spSave10.discount_value / 100)
            (cartTotal c8Db [(1, 2)]) ∧
        o'.discount_amount ≤ cartTotal c8Db [(1, 2)]) :=
  C8_discount_clamped_total c8Db 1 [(1, 2)] cashForm spSave10 c8DbAfter 1 c8_checkout_eval

/-- **C9** — when checkout redeems an active gift card owned by the
customer (box ticked, card id submitted and found), the contribution is
`min(balance_before, afterDiscount)`, the card's stored balance drops
by exactly that contribution, and a `'redeemed'` gift-card ledger row
for that amount is appended. -/
theorem C9_gift_card_contribution (db : DB) (cid : Nat) (cart : List (Nat × Nat))
    (f : CheckoutForm) (sp : SessionPromo) (db' : DB) (oid' : Nat) (gid : Nat)
    (card : GiftCard)
    (h : checkout db cid cart f sp = .ok (db', oid'))
    (huse : f.use_gift_card = true)
    (hgid : f.gift_card_id = some gid)
    (hgid0 : gid ≠ 0)
    (hcard : findGiftCard (promoDb db sp) gid cid = some card) :
    giftAmtOf db cid cart f sp =
      min card.balance (cartTotal db cart - discountOf db cart sp) ∧
    db'.gift_cards = db.gift_cards.map (fun c => if c.id == gid then
      { c with balance := (card.balance -
          min card.balance (cartTotal db cart - discountOf db cart sp)) } else c) ∧
    db'.gift_card_transactions = db.gift_card_transactions ++
      [⟨gid, "redeemed", min card.balance (cartTotal db cart - discountOf db cart sp),
        "Used for order payment"⟩] := by
  obtain ⟨hdb, hoid⟩ := checkout_ok_inv db cid cart f sp db' oid' h
  subst hdb
  subst hoid
  have htr : truthyN f.gift_card_id = true := by rw [hgid]; simpa [truthyN] using hgid0
  have hstep : giftStepOf db cid cart f sp =
      giftCardStep (promoDb db sp) cid gid
        (cartTotal db cart - discountOf db cart sp) := by
    unfold giftStepOf giftPhase
    rw [if_pos ⟨huse, htr⟩, hgid]
    rfl
  have hgs : giftStepOf db cid cart f sp =
      ({ promoDb db sp with
          gift_cards := (promoDb db sp).gift_cards.map (fun c =>
            if c.id == gid then { c with balance := (card.balance -
              min card.balance (cartTotal db cart - discountOf db cart sp)) } else c),
          gift_card_transactions := (promoDb db sp).gift_card_transactions ++
            [⟨gid, "redeemed", min card.balance (cartTotal db cart - discountOf db cart sp),
              "Used for order payment"⟩] },
        min card.balance (cartTotal db cart - discountOf db cart sp)) := by
    rw [hstep]
    unfold giftCardStep
    rw [hcard]
  refine ⟨?_, ?_, ?_⟩
  · show (giftStepOf db cid cart f sp).2 = _
    rw [hgs]
  · show (checkoutDbOf db cid cart f sp).gift_cards = _
    unfold checkoutDbOf
    rw [(insertItemsAndDebit_frame _ _ _).2.2.2.2.1]
    show (giftStepOf db cid cart f sp).1.gift_cards = _
    rw [hgs]
    show (promoDb db sp).gift_cards.map _ = _
    rw [(promoDb_frame db sp).2.2.2.2.2.2.1]
  · show (checkoutDbOf db cid cart f sp).gift_card_transactions = _
    unfold checkoutDbOf
    rw [(insertItemsAndDebit_frame _ _ _).2.2.2.2.2.1]
    show (giftStepOf db cid cart f sp).1.gift_card_transactions = _
    rw [hgs]
    show (promoDb db sp).gift_card_transactions ++ _ = _
    rw [(promoDb_frame db sp).2.2.2.2.2.2.2.1]

/-- Witness for C9: balance 5 against a 6.00 order → contribution 5,
balance 0, one 5.00 redemption row. -/
theorem C9_gift_card_contribution_witness :
    giftAmtOf c9Db 1 [(1, 1)] giftForm noPromo =
      min c9Card.balance (cartTotal c9Db [(1, 1)] - discountOf c9Db [(1, 1)] noPromo) ∧
    c9DbAfter.gift_cards = c9Db.gift_cards.map (fun c => if c.id == 3 then
      { c with balance := (c9Card.balance -
          min c9Card.balance (cartTotal c9Db [(1, 1)] - discountOf c9Db [(1, 1)] noPromo)) }
      else c) ∧
    c9DbAfter.gift_card_transactions = c9Db.gift_card_transactions ++
      [⟨3, "redeemed",
        min c9Card.balance (cartTotal c9Db [(1, 1)] - discountOf c9Db [(1, 1)] noPromo),
        "Used for order payment"⟩] :=
  C9_gift_card_contribution c9Db 1 [(1, 1)] giftForm noPromo c9DbAfter 1 3 c9Card
    c9_checkout_eval rfl rfl (by decide) rfl
